import Mathlib

/-!
Verification development for the reatchify SDK code generator.

The definitions below are a shallow embedding of the generation pipeline:
the configuration resolver (`src/core/config/configUtils.ts`), the naming
utilities (`src/core/generation/api/utils.ts`), the per-artifact generators
(`api/index.ts`, `types/files.ts`, `stores/index.ts`, `client.ts`,
`utils/exports.ts`) and the orchestrator (`src/core/generation/generate.ts`).

Modelling conventions:
* TypeScript optional fields become `Option` fields; an absent property is
  `none`.  JavaScript's `x || y` fallback (where the empty string and
  `undefined` are falsy) is modelled by `jsOrStr`.
* JavaScript string operations (`split`, `toUpperCase`, `toLowerCase`,
  `startsWith`, `includes`, `charAt(0)` case changes) are re-implemented by
  structural recursion over `List Char` so that every definition evaluates
  inside the kernel.  All are ASCII-faithful, which covers every string the
  generator manipulates.
* `Record<string, string>` file maps become association lists with
  JavaScript assignment semantics (`recordSet` overwrites an existing key in
  place, otherwise appends).  `Object.entries`/`Object.keys` order for the
  non-numeric keys produced here is insertion order; all theorems about file
  maps are stated so that only membership and the overwrite behaviour
  matter.
* Emitted file text is transcribed from the source with `\x7b` and `\x7d`
  standing for the literal braces of the generated code.
-/

namespace ReatchifySDK

/-! ## JavaScript string and record primitives -/

/-- JavaScript `a || b` for an optional string `a`: `undefined` and the empty
string are falsy. -/
def jsOrStr (a : Option String) (b : String) : String :=
  match a with
  | some s => if s = "" then b else s
  | none => b

/-- Splitting on a single-character separator, as JavaScript
`s.split(sep)` does it: `"".split(sep)` is `[""]`, a leading separator
produces a leading empty piece. -/
def splitCharAux (sep : Char) : List Char → List Char → List String
  | [], acc => [String.mk acc.reverse]
  | c :: cs, acc =>
    if c = sep then String.mk acc.reverse :: splitCharAux sep cs []
    else splitCharAux sep cs (c :: acc)

/-- JavaScript `s.split(sep)` for a one-character separator. -/
def jsSplit (s : String) (sep : Char) : List String :=
  splitCharAux sep s.data []

/-- Whether `needle` occurs as a contiguous run inside `hay`
(JavaScript `hay.includes(needle)`). -/
def listIsInfix (needle hay : List Char) : Bool :=
  match hay with
  | [] => needle.isEmpty
  | _ :: t => needle.isPrefixOf hay || listIsInfix needle t

/-- JavaScript `s.includes(sub)`. -/
def jsIncludes (s sub : String) : Bool :=
  listIsInfix sub.data s.data

/-- JavaScript `s.startsWith(pre)`. -/
def jsStartsWith (s pre : String) : Bool :=
  pre.data.isPrefixOf s.data

/-- JavaScript `s.endsWith(suf)`. -/
def jsEndsWith (s suf : String) : Bool :=
  suf.data.reverse.isPrefixOf s.data.reverse

/-- ASCII `s.toUpperCase()`. -/
def jsToUpper (s : String) : String :=
  String.mk (s.data.map Char.toUpper)

/-- ASCII `s.toLowerCase()`. -/
def jsToLower (s : String) : String :=
  String.mk (s.data.map Char.toLower)

/-- `s.charAt(0).toLowerCase() + s.slice(1)`: lower-case the first character
only (the empty string stays empty, as in JavaScript). -/
def lowerFirst (s : String) : String :=
  match s.data with
  | [] => ""
  | c :: cs => String.mk (Char.toLower c :: cs)

/-- `s.charAt(0).toUpperCase() + s.slice(1)`: capitalize the first character
only. -/
def upperFirst (s : String) : String :=
  match s.data with
  | [] => ""
  | c :: cs => String.mk (Char.toUpper c :: cs)

/-- JavaScript object property assignment `obj[key] = value` on an
association list: overwrite the first entry with that key, otherwise append
at the end (insertion order). -/
def recordSet (m : List (String × String)) (key value : String) :
    List (String × String) :=
  match m with
  | [] => [(key, value)]
  | (k, v) :: rest =>
    if k = key then (k, value) :: rest else (k, v) :: recordSet rest key value

/-- The keys of a file map. -/
def keysOf (m : List (String × String)) : List String := m.map Prod.fst

/-- `arr.join(sep)` for a list of strings. -/
def jsJoin (sep : String) : List String → String
  | [] => ""
  | [s] => s
  | s :: rest => s ++ sep ++ jsJoin sep rest

/-! ## Data model: schema and configuration

Transcribed from `src/core/schema/schema.ts` (`ApiSchema`) and
`src/core/config/config.ts` (`ReatchifyConfig`, `INTERNAL_API_CONFIG`).
-/

/-- One endpoint parameter (`ApiSchema.endpoints[].parameters[]`). -/
structure Param where
  name : String
  type : String
  required : Bool
  description : Option String := none
deriving DecidableEq, Repr

/-- An endpoint response declaration. -/
structure EndpointResponse where
  type : String
  description : Option String := none
deriving DecidableEq, Repr

/-- One endpoint of the schema. -/
structure Endpoint where
  path : String
  method : String
  description : Option String := none
  parameters : Option (List Param) := none
  response : Option EndpointResponse := none
deriving DecidableEq, Repr

/-- The API schema: endpoints plus a record of type definitions, each type a
record of field name to type-expression string. -/
structure ApiSchema where
  endpoints : List Endpoint
  types : List (String × List (String × String))
deriving DecidableEq, Repr

/-- `naming` group of `ReatchifyConfig`. -/
structure NamingConfig where
  clientPrefix : Option String := none
  storePrefix : Option String := none
  hookPrefix : Option String := none
deriving DecidableEq, Repr

/-- `auth` group. -/
structure AuthConfig where
  enabled : Option Bool := none
deriving DecidableEq, Repr

/-- `services` group.  The TypeScript field is called `include`, which is a
Lean keyword, hence `includeServices`. -/
structure ServicesConfig where
  includeServices : Option (List String) := none
deriving DecidableEq, Repr

/-- `folderStructure` group. -/
structure FolderStructureConfig where
  types : Option String := none
  api : Option String := none
  client : Option String := none
  stores : Option String := none
deriving DecidableEq, Repr

/-- `client` group. -/
structure ClientConfig where
  enabled : Option Bool := none
  className : Option String := none
  exportAsDefault : Option Bool := none
  includeUtils : Option Bool := none
deriving DecidableEq, Repr

/-- `api` group. -/
structure ApiConfig where
  enabled : Option Bool := none
  namespaceName : Option String := none
  groupByResource : Option Bool := none
  includeHttpClient : Option Bool := none
deriving DecidableEq, Repr

/-- `response` group (`pattern` is `"promise"` or `"result"`). -/
structure ResponseConfig where
  pattern : Option String := none
  includeErrorClasses : Option Bool := none
  customErrorTypes : Option (List String) := none
deriving DecidableEq, Repr

/-- `plugins` group. -/
structure PluginsConfig where
  enabled : Option Bool := none
  registryClassName : Option String := none
  includeDefaultPlugins : Option Bool := none
deriving DecidableEq, Repr

/-- `versioning` group. -/
structure VersioningConfig where
  enabled : Option Bool := none
  headerName : Option String := none
  versionFromPackage : Option Bool := none
deriving DecidableEq, Repr

/-- One user-declared custom error class (`errorHandling.customErrorClasses[]`). -/
structure CustomErrorClass where
  name : String
  baseClass : Option String := none
  properties : Option (List String) := none
deriving DecidableEq, Repr

/-- `errorHandling` group. -/
structure ErrorHandlingConfig where
  enabled : Option Bool := none
  includeNetworkErrors : Option Bool := none
  includeValidationErrors : Option Bool := none
  customErrorClasses : Option (List CustomErrorClass) := none
deriving DecidableEq, Repr

/-- `http.retry` sub-group. -/
structure RetryConfig where
  enabled : Option Bool := none
  maxAttempts : Option Nat := none
  delay : Option Nat := none
deriving DecidableEq, Repr

/-- `http.interceptors` sub-group. -/
structure InterceptorsConfig where
  request : Option Bool := none
  response : Option Bool := none
deriving DecidableEq, Repr

/-- `http` group. -/
structure HttpConfig where
  timeout : Option Nat := none
  headers : Option (List (String × String)) := none
  retry : Option RetryConfig := none
  interceptors : Option InterceptorsConfig := none
deriving DecidableEq, Repr

/-- `generation` group.  Note that `overwrite`, `dryRun` and
`validateOutput` exist in the TypeScript interface (the comments there say
`overwrite` defaults to `false`) but `mergeConfigWithDefaults` supplies no
built-in default for them. -/
structure GenerationConfig where
  includeComments : Option Bool := none
  includeJSDoc : Option Bool := none
  minify : Option Bool := none
  sourceMap : Option Bool := none
  declarationFiles : Option Bool := none
  overwrite : Option Bool := none
  dryRun : Option Bool := none
  validateOutput : Option Bool := none
deriving DecidableEq, Repr

/-- One entry of `environments` (`Partial<ReatchifyConfig>`).
`mergeConfigWithDefaults` only ever reads `apiVersion` from the selected
environment block; `httpClient` and `stateManagement` are carried here so
that theorems can talk about environment fields the code ignores. -/
structure EnvOverride where
  apiVersion : Option String := none
  httpClient : Option String := none
  stateManagement : Option String := none
deriving DecidableEq, Repr

/-- The user configuration (`ReatchifyConfig` of `src/core/config/config.ts`).
The `advanced` group holds only functions (hooks, transformers); its only
effects observable by `generateCode` are modelled by the fault fields of
`World` below, so the group is not carried in the structure. -/
structure ReatchifyConfig where
  apiKey : Option String := none
  language : Option String := none
  stateManagement : Option String := none
  httpClient : Option String := none
  outputDir : Option String := none
  environments : Option (List (String × EnvOverride)) := none
  projectType : Option String := none
  naming : Option NamingConfig := none
  auth : Option AuthConfig := none
  services : Option ServicesConfig := none
  apiVersion : Option String := none
  folderStructure : Option FolderStructureConfig := none
  client : Option ClientConfig := none
  api : Option ApiConfig := none
  response : Option ResponseConfig := none
  plugins : Option PluginsConfig := none
  versioning : Option VersioningConfig := none
  errorHandling : Option ErrorHandlingConfig := none
  http : Option HttpConfig := none
  generation : Option GenerationConfig := none
deriving DecidableEq, Repr

/-- `INTERNAL_API_CONFIG` of `src/core/config/config.ts` (the parts the
embedded functions read). -/
def internalDefaultVersion : String := "v2"

/-- `INTERNAL_API_CONFIG.timeout`. -/
def internalTimeout : Nat := 30000

/-- `INTERNAL_API_CONFIG.headers`. -/
def internalHeaders : List (String × String) :=
  [("Content-Type", "application/json"), ("X-Client", "reatchify-sdk")]

/-- `INTERNAL_API_CONFIG.baseUrls.prod`. -/
def internalBaseUrlProd : String := "https://api.internal-company.com"

/-- The `generation` group with `config.generation || {}` semantics. -/
def generationOf (config : ReatchifyConfig) : GenerationConfig :=
  config.generation.getD {}

/-- `config.generation?.includeComments !== false`. -/
def includeCommentsOf (config : ReatchifyConfig) : Bool :=
  !((generationOf config).includeComments == some false)

/-- `config.generation?.includeJSDoc` used as a truthy condition (the api
generator tests it for truth, not against `false`). -/
def includeJSDocTruthy (config : ReatchifyConfig) : Bool :=
  (generationOf config).includeJSDoc == some true

/-! ## Naming utilities

Transcribed from `src/core/generation/api/utils.ts`.
-/

/-- `generateParams` (api/utils.ts): the destructured parameter declaration
`\x7b a, b \x7d: \x7b a: T, b?: U \x7d`; the empty list gives the empty
string. -/
def generateParams (parameters : List Param) : String :=
  if parameters.length = 0 then ""
  else
    let destructuredParams := jsJoin ", " (parameters.map (fun p => p.name))
    let typeAnnotation :=
      jsJoin ", " (parameters.map (fun p =>
        p.name ++ (if p.required then "" else "?") ++ ": " ++ p.type))
    "\x7b " ++ destructuredParams ++ " \x7d: \x7b " ++ typeAnnotation ++ " \x7d"

/-- `generateMethodName` (api/utils.ts): HTTP verb to semantic prefix, first
non-parameter path segment as the resource noun, `ById` suffix when a
parameter name is or contains `id` case-insensitively. -/
def generateMethodName (endpoint : Endpoint) : String :=
  let parameters := endpoint.parameters.getD []
  let pathParts :=
    (jsSplit endpoint.path '/').filter
      (fun p => p != "" && !(jsStartsWith p "\x7b"))
  let resource := jsOrStr pathParts.head? "operation"
  let camelResource := lowerFirst resource
  let hasIdParam :=
    parameters.any (fun p => p.name == "id" || jsIncludes (jsToLower p.name) "id")
  let methodPrefix :=
    match jsToUpper endpoint.method with
    | "GET" => "get"
    | "POST" => "create"
    | "PUT" => "update"
    | "PATCH" => "update"
    | "DELETE" => "delete"
    | _ => "operation"
  let baseName := methodPrefix ++ upperFirst camelResource
  if hasIdParam then baseName ++ "ById" else baseName

/-! ## API file generator

Transcribed from `src/core/generation/api/index.ts` (`generateApiFiles` and
`getAvailableServices`).  `console.warn` output is returned as the
`warnings` component.
-/

/-- `endpoint.path.split("/")[1] || "general"`: the resource bucket of an
endpoint, as computed by `generateApiFiles` (api/index.ts lines 61 and 149),
`getAvailableServices` (line 206) and `generateZustandEndpointStore`
(stores/index.ts line 883). -/
def resourceOf (path : String) : String :=
  jsOrStr ((jsSplit path '/').get? 1) "general"

/-- `getAvailableServices`: the distinct resource names of the schema, in
first-occurrence order (a `Set` keeps insertion order in JavaScript). -/
def getAvailableServices (schema : ApiSchema) : List String :=
  schema.endpoints.foldl
    (fun acc ep =>
      let r := resourceOf ep.path
      if acc.contains r then acc else acc ++ [r])
    []

/-- One step of the grouping loop (api/index.ts lines 64-67): append the
endpoint to its resource bucket, creating the bucket at the end on first
sight (JavaScript object insertion order). -/
def addEndpointToResources (resources : List (String × List Endpoint))
    (r : String) (ep : Endpoint) : List (String × List Endpoint) :=
  if resources.any (fun p => p.1 == r) then
    resources.map (fun p => if p.1 == r then (p.1, p.2 ++ [ep]) else p)
  else resources ++ [(r, [ep])]

/-- The `resources` object of grouped generation (api/index.ts lines 59-68):
endpoints bucketed by resource, keeping only resources in
`servicesToGenerate`. -/
def groupEndpointsByResource (endpoints : List Endpoint)
    (servicesToGenerate : List String) : List (String × List Endpoint) :=
  endpoints.foldl
    (fun acc ep =>
      let resource := resourceOf ep.path
      if servicesToGenerate.contains resource then
        addEndpointToResources acc resource ep
      else acc)
    []

/-- The per-endpoint portion of an api file (api/index.ts lines 82-121; the
flat mode repeats the same text at lines 153-192). -/
def apiEndpointSnippet (config : ReatchifyConfig) (includeComments includeHttpClient : Bool)
    (endpoint : Endpoint) : String :=
  let methodName := generateMethodName endpoint
  let descriptionComment :=
    match endpoint.description with
    | some d => if includeComments && d != "" then "// " ++ d ++ "\n" else ""
    | none => ""
  let jsDoc :=
    if includeJSDocTruthy config then
      "/**\n" ++
      " * " ++ jsOrStr endpoint.description (endpoint.method ++ " " ++ endpoint.path) ++ "\n" ++
      String.join ((endpoint.parameters.getD []).map (fun param =>
        " * @param \x7b" ++ param.type ++ "\x7d " ++ param.name ++ " - " ++
        jsOrStr param.description "Parameter" ++ "\n")) ++
      " * @returns \x7bPromise\x7d API response\n" ++
      " */\n"
    else ""
  let signature :=
    "export const " ++ methodName ++ " = async (" ++
    generateParams (endpoint.parameters.getD []) ++ ") => \x7b\n"
  let body :=
    if includeHttpClient then
      let paramNames := jsJoin ", " ((endpoint.parameters.getD []).map (fun p => p.name))
      if endpoint.parameters.isSome && (endpoint.parameters.getD []).length > 0 then
        "  return makeRequest('" ++ endpoint.method ++ "', '" ++ endpoint.path ++
          "', \x7b params: \x7b " ++ paramNames ++ " \x7d \x7d);\n"
      else
        "  return makeRequest('" ++ endpoint.method ++ "', '" ++ endpoint.path ++ "');\n"
    else
      "  // TODO: Implement HTTP request\n" ++
      "  throw new Error('HTTP client not configured');\n"
  descriptionComment ++ jsDoc ++ signature ++ body ++ "\x7d;\n\n"

/-- The `import \x7b makeRequest \x7d from '../<clientFolder>/http';` line of
an api file (api/index.ts lines 77-79 and 142-144). -/
def apiImportLine (config : ReatchifyConfig) : String :=
  "import \x7b makeRequest \x7d from '../" ++
  jsOrStr ((config.folderStructure.getD {}).client) "client" ++ "/http';\n\n"

/-- One grouped resource file (api/index.ts lines 71-124). -/
def apiResourceFileContent (config : ReatchifyConfig)
    (includeComments includeHttpClient : Bool) (resource : String)
    (endpoints : List Endpoint) : String :=
  let header :=
    if includeComments then
      "// Generated API operations for " ++ resource ++
      "\n// This file contains HTTP request functions for " ++ resource ++
      " endpoints\n\n"
    else ""
  let importPart := if includeHttpClient then apiImportLine config else ""
  header ++ importPart ++
    String.join (endpoints.map (apiEndpointSnippet config includeComments includeHttpClient))

/-- The grouped-mode `index.ts` content (api/index.ts lines 126-134). -/
def apiIndexContent (includeComments : Bool) (resourceKeys : List String) : String :=
  let header :=
    if includeComments then
      "// API operation exports\n// This file exports all generated API functions\n\n"
    else ""
  header ++ jsJoin "\n" (resourceKeys.map (fun resource => "export * from './" ++ resource ++ "';"))

/-- The result of `generateApiFiles`: the file map plus the `console.warn`
lines about selected-but-missing services. -/
structure ApiFilesResult where
  files : List (String × String)
  warnings : List String
deriving DecidableEq, Repr

/-- `generateApiFiles` (api/index.ts lines 27-198). -/
def generateApiFiles (schema : ApiSchema) (config : ReatchifyConfig) : ApiFilesResult :=
  let apiConfig := config.api.getD {}
  let includeComments := includeCommentsOf config
  let groupByResource := !(apiConfig.groupByResource == some false)
  let includeHttpClient := !(apiConfig.includeHttpClient == some false)
  let selectedServices := (config.services.getD {}).includeServices
  let availableServices := getAvailableServices schema
  let warnings :=
    match selectedServices with
    | some sel =>
      let invalidServices := sel.filter (fun s => !(availableServices.contains s))
      if invalidServices.length > 0 then
        ["⚠️  Warning: The following services are not available in the schema: " ++
           jsJoin ", " invalidServices,
         "Available services: " ++ jsJoin ", " availableServices]
      else []
    | none => []
  let servicesToGenerate := selectedServices.getD availableServices
  if groupByResource then
    let resources := groupEndpointsByResource schema.endpoints servicesToGenerate
    let resourceFiles :=
      resources.foldl
        (fun acc entry =>
          recordSet acc (entry.1 ++ ".ts")
            (apiResourceFileContent config includeComments includeHttpClient entry.1 entry.2))
        []
    let files :=
      recordSet resourceFiles "index.ts"
        (apiIndexContent includeComments (resources.map Prod.fst))
    ⟨files, warnings⟩
  else
    let filteredEndpoints :=
      schema.endpoints.filter (fun ep => servicesToGenerate.contains (resourceOf ep.path))
    let header :=
      if includeComments then
        "// Generated API operations\n// This file contains all HTTP request functions\n\n"
      else ""
    let importPart := if includeHttpClient then apiImportLine config else ""
    let content :=
      header ++ importPart ++
        String.join (filteredEndpoints.map
          (apiEndpointSnippet config includeComments includeHttpClient))
    ⟨recordSet [] "index.ts" content, warnings⟩

/-! ## Store file generator

Transcribed from `src/core/generation/stores/index.ts`.
-/

/-- `config.naming || \x7b clientPrefix: "", storePrefix: "use", hookPrefix:
"use" \x7d` (stores/index.ts lines 756-760; the same default appears in
api/index.ts lines 32-36). -/
def namingOf (config : ReatchifyConfig) : NamingConfig :=
  config.naming.getD { clientPrefix := some "", storePrefix := some "use", hookPrefix := some "use" }

/-- `naming.storePrefix` interpolated into a template literal: a missing
property renders as the string `undefined` in JavaScript. -/
def storePrefixText (naming : NamingConfig) : String :=
  match naming.storePrefix with
  | some s => s
  | none => "undefined"

/-- `generateZustandIndex` (stores/index.ts lines 806-816). -/
def generateZustandIndex (includeComments : Bool) : String :=
  let header :=
    if includeComments then
      "// Zustand stores\n// This file exports all generated Zustand stores\n\n"
    else ""
  header ++ "export * from './apiStore';\n"

/-- `generateReduxIndex` (stores/index.ts lines 821-829). -/
def generateReduxIndex (includeComments : Bool) : String :=
  let header :=
    if includeComments then
      "// Redux stores\n// This file exports all generated Redux stores\n\n"
    else ""
  header ++ "export * from './store';\n" ++ "export * from './apiSlice';\n"

/-- `generateZustandApiStore` (stores/index.ts lines 834-870): the global
loading/error store. -/
def generateZustandApiStore (includeComments : Bool) (naming : NamingConfig) : String :=
  let header :=
    if includeComments then
      "// Generated Zustand API store\n// This file provides global API state management\n\n"
    else ""
  header ++
  "import \x7b create \x7d from 'zustand';\n\n" ++
  "/**\n" ++
  " * Global API state interface\n" ++
  " */\n" ++
  "interface ApiState \x7b\n" ++
  "  /** Loading state */\n" ++
  "  loading: boolean;\n" ++
  "  /** Error message */\n" ++
  "  error: string | null;\n" ++
  "  /** Set loading state */\n" ++
  "  setLoading: (loading: boolean) => void;\n" ++
  "  /** Set error message */\n" ++
  "  setError: (error: string | null) => void;\n" ++
  "\x7d\n\n" ++
  "/**\n" ++
  " * Global API store for managing loading states and errors\n" ++
  " */\n" ++
  "export const " ++ storePrefixText naming ++ "ApiStore = create<ApiState>((set) => (\x7b\n" ++
  "  loading: false,\n" ++
  "  error: null,\n" ++
  "  setLoading: (loading) => set(\x7b loading \x7d),\n" ++
  "  setError: (error) => set(\x7b error \x7d),\n" ++
  "\x7d));\n"

/-- The `import \x7b <fn> \x7d from '../api/<resource>';` line of a generated
endpoint store (stores/index.ts line 891).  The `resource` is
`endpoint.path.split("/")[1] || "general"` (line 883), i.e. `resourceOf`. -/
def zustandStoreApiImport (functionName resource : String) : String :=
  "import \x7b " ++ functionName ++ " \x7d from '../api/" ++ resource ++ "';\n\n"

/-- `generateZustandEndpointStore` (stores/index.ts lines 875-934). -/
def generateZustandEndpointStore (endpoint : Endpoint) (includeComments : Bool)
    (naming : NamingConfig) (methodName storeName : String) : String :=
  let resource := resourceOf endpoint.path
  let functionName := methodName
  let header :=
    if includeComments then
      "// Generated store for " ++ endpoint.path ++
      "\n// This file provides state management for " ++ endpoint.path ++
      " operations\n\n"
    else ""
  let callArgs :=
    match endpoint.parameters with
    | some ps => "\x7b " ++ jsJoin ", " (ps.map (fun p => p.name)) ++ " \x7d"
    | none => ""
  header ++
  "import \x7b create \x7d from 'zustand';\n" ++
  zustandStoreApiImport functionName resource ++
  "/**\n" ++
  " * State interface for " ++ storeName ++ " store\n" ++
  " */\n" ++
  "interface " ++ storeName ++ "State \x7b\n" ++
  "  /** Stored data */\n" ++
  "  data: any;\n" ++
  "  /** Loading state */\n" ++
  "  loading: boolean;\n" ++
  "  /** Error message */\n" ++
  "  error: string | null;\n" ++
  "  /** Fetch function */\n" ++
  "  fetch: (" ++ generateParams (endpoint.parameters.getD []) ++ ") => Promise<void>;\n" ++
  "\x7d\n\n" ++
  "/**\n" ++
  " * " ++ storeName ++ " store for managing " ++ endpoint.path ++ " data\n" ++
  " */\n" ++
  "export const " ++ storePrefixText naming ++ storeName ++ "Store = create<" ++
    storeName ++ "State>((set) => (\x7b\n" ++
  "  data: null,\n" ++
  "  loading: false,\n" ++
  "  error: null,\n" ++
  "  fetch: async (" ++ generateParams (endpoint.parameters.getD []) ++ ") => \x7b\n" ++
  "    set(\x7b loading: true, error: null \x7d);\n" ++
  "    try \x7b\n" ++
  "      const data = await " ++ functionName ++ "(" ++ callArgs ++ ");\n" ++
  "      set(\x7b data, loading: false \x7d);\n" ++
  "    \x7d catch (error) \x7b\n" ++
  "      set(\x7b error: (error as Error).message, loading: false \x7d);\n" ++
  "    \x7d\n" ++
  "  \x7d,\n" ++
  "\x7d));\n"

/-- `generateReduxStore` (stores/index.ts lines 939-965). -/
def generateReduxStore (includeComments : Bool) : String :=
  let header :=
    if includeComments then
      "// Generated Redux store\n// This file configures the Redux store with API middleware\n\n"
    else ""
  header ++
  "import \x7b configureStore \x7d from '@reduxjs/toolkit';\n" ++
  "import \x7b apiSlice \x7d from './apiSlice';\n\n" ++
  "/**\n" ++
  " * Configured Redux store with API slice\n" ++
  " */\n" ++
  "export const store = configureStore(\x7b\n" ++
  "  reducer: \x7b\n" ++
  "    [apiSlice.reducerPath]: apiSlice.reducer,\n" ++
  "  \x7d,\n" ++
  "  middleware: (getDefaultMiddleware) =>\n" ++
  "    getDefaultMiddleware().concat(apiSlice.middleware),\n" ++
  "\x7d);\n\n" ++
  "/**\n" ++
  " * Type definitions for Redux store\n" ++
  " */\n" ++
  "export type RootState = ReturnType<typeof store.getState>;\n" ++
  "export type AppDispatch = typeof store.dispatch;\n"

/-- `generateReduxApiSlice` (stores/index.ts lines 970-991). -/
def generateReduxApiSlice (includeComments : Bool) : String :=
  let header :=
    if includeComments then
      "// Generated Redux API slice\n// This file provides RTK Query API slice for data fetching\n\n"
    else ""
  header ++
  "import \x7b createApi, fetchBaseQuery \x7d from '@reduxjs/toolkit/query/react';\n\n" ++
  "const API_BASE_URL = process.env.REACTIFY_API_BASE_URL || '';\n\n" ++
  "/**\n" ++
  " * RTK Query API slice for handling API requests\n" ++
  " */\n" ++
  "export const apiSlice = createApi(\x7b\n" ++
  "  reducerPath: 'api',\n" ++
  "  baseQuery: fetchBaseQuery(\x7b baseUrl: API_BASE_URL \x7d),\n" ++
  "  endpoints: (builder) => (\x7b\n" ++
  "    // TODO: Add endpoints based on schema\n" ++
  "  \x7d),\n" ++
  "\x7d);\n"

/-- `storeName`: `methodName` with its first character capitalized
(stores/index.ts lines 769-770 and 783-784). -/
def storeNameOf (ep : Endpoint) : String :=
  upperFirst (generateMethodName ep)

/-- `generateStoreFiles` (stores/index.ts lines 751-801).  The zustand
branch writes `index.ts` (with one re-export appended per endpoint store),
then `apiStore.ts`, then one `<StoreName>Store.ts` per endpoint; the redux
branch writes three fixed files; any other state-management value produces
no files. -/
def generateStoreFiles (schema : ApiSchema) (config : ReatchifyConfig) :
    List (String × String) :=
  let naming := namingOf config
  let includeComments := includeCommentsOf config
  if config.stateManagement == some "zustand" then
    let indexContent :=
      generateZustandIndex includeComments ++
      String.join (schema.endpoints.map (fun ep =>
        "export * from './" ++ storeNameOf ep ++ "Store';\n"))
    let base :=
      recordSet (recordSet [] "index.ts" indexContent) "apiStore.ts"
        (generateZustandApiStore includeComments naming)
    schema.endpoints.foldl
      (fun acc ep =>
        let methodName := generateMethodName ep
        let storeName := storeNameOf ep
        recordSet acc (storeName ++ "Store.ts")
          (generateZustandEndpointStore ep includeComments naming methodName storeName))
      base
  else if config.stateManagement == some "redux" then
    recordSet
      (recordSet (recordSet [] "index.ts" (generateReduxIndex includeComments))
        "store.ts" (generateReduxStore includeComments))
      "apiSlice.ts" (generateReduxApiSlice includeComments)
  else []

/-! ## Types file generator

Transcribed from `src/core/generation/types/files.ts`.
-/

/-- One generated type file (types/files.ts lines 35-53). -/
def typeFileContent (includeComments includeJSDoc : Bool) (typeName : String)
    (typeDef : List (String × String)) : String :=
  let header :=
    if includeComments then
      "// Generated type for " ++ typeName ++
      "\n// This file contains TypeScript interfaces for API data models\n\n"
    else ""
  let jsDoc :=
    if includeJSDoc then
      "/** " ++ typeName ++ " interface - Generated from API schema */\n"
    else ""
  header ++ jsDoc ++
  "export interface " ++ typeName ++ " \x7b\n" ++
  jsJoin "\n" (typeDef.map (fun fieldAndType =>
    (if includeJSDoc then "  /** " ++ fieldAndType.1 ++ " field */\n  " else "  ") ++
    fieldAndType.1 ++ ": " ++ fieldAndType.2 ++ ";")) ++
  "\n\x7d\n"

/-- `generateTypesFiles` (types/files.ts lines 25-67): one file per schema
type, keyed by the lower-cased type name, plus an `index.ts` re-exporting
every type file. -/
def generateTypesFiles (schema : ApiSchema) (config : ReatchifyConfig) :
    List (String × String) :=
  let includeComments := includeCommentsOf config
  let includeJSDoc := !((generationOf config).includeJSDoc == some false)
  let typeFiles :=
    schema.types.foldl
      (fun acc entry =>
        recordSet acc (jsToLower entry.1 ++ ".ts")
          (typeFileContent includeComments includeJSDoc entry.1 entry.2))
      []
  let indexHeader :=
    if includeComments then
      "// Type exports\n// This file exports all generated TypeScript interfaces\n\n"
    else ""
  let indexContent :=
    indexHeader ++
    jsJoin "\n" (schema.types.map (fun entry =>
      "export * from './" ++ jsToLower entry.1 ++ "';"))
  recordSet typeFiles "index.ts" indexContent

/-! ## Root index generator

Transcribed from `src/core/generation/utils/exports.ts`
(`generateMainIndexFile`; `generateIndexFile` in the same file is unused by
the orchestrator).
-/

/-- `generateMainIndexFile` (utils/exports.ts lines 60-86): re-exports
types, api and client unconditionally and stores only when
`config.stateManagement` is set and not `"none"`. -/
def generateMainIndexFile (config : ReatchifyConfig) : String :=
  let includeComments := includeCommentsOf config
  let header :=
    if includeComments then
      "// Reatchify SDK\n// This file exports all generated modules and utilities\n\n"
    else ""
  let storesPart :=
    match config.stateManagement with
    | some sm => if sm != "none" && sm != "" then "// State management\nexport * from './stores';\n\n" else ""
    | none => ""
  header ++
  "// Type definitions\n" ++
  "export type * from './types';\n\n" ++
  "// API operations\n" ++
  "export * from './api';\n\n" ++
  "// HTTP client\n" ++
  "export * from './client';\n\n" ++
  storesPart

/-! ## Client file generator

Transcribed from `src/core/generation/client.ts`.
-/

/-- `JSON.stringify(headers, null, 2)` for a string-to-string record. -/
def jsonStringifyHeaders (headers : List (String × String)) : String :=
  match headers with
  | [] => "\x7b\x7d"
  | hs =>
    "\x7b\n" ++
    jsJoin ",\n" (hs.map (fun kv => "  \"" ++ kv.1 ++ "\": \"" ++ kv.2 ++ "\"")) ++
    "\n\x7d"

/-- `generateHttpClient` (client.ts lines 106-222): the emitted `http.ts`
with the `makeRequest` helper.  The `\x60` escapes are the backticks of the
emitted template literals. -/
def generateHttpClient (config : ReatchifyConfig) (includeComments : Bool)
    (responseConfig : ResponseConfig) (httpConfig : HttpConfig) : String :=
  let header :=
    if includeComments then
      "// HTTP client wrapper\n// This file provides HTTP request functionality with configurable response patterns\n\n"
    else ""
  let baseUrlLine :=
    "const API_BASE_URL = process.env.REACTIFY_API_BASE_URL || '" ++
    internalBaseUrlProd ++ "';\n\n"
  let axiosSetup :=
    if config.httpClient == some "axios" then
      "import axios from 'axios';\n\n" ++
      baseUrlLine ++
      "const httpClient = axios.create(\x7b\n" ++
      "  baseURL: API_BASE_URL,\n" ++
      (match httpConfig.timeout with
       | some t => if t ≠ 0 then "  timeout: " ++ toString t ++ ",\n" else ""
       | none => "") ++
      (match httpConfig.headers with
       | some hs => "  headers: " ++ jsonStringifyHeaders hs ++ ",\n"
       | none => "") ++
      "\x7d);\n\n"
    else baseUrlLine
  let apiResponseInterface :=
    if !(responseConfig.pattern == some "promise") then
      "/**\n" ++
      " * API Response interface for result pattern\n" ++
      " * @template T - The type of the response data\n" ++
      " */\n" ++
      "export interface ApiResponse<T = any> \x7b\n" ++
      "  data: T | null;\n" ++
      "  error: Error | null;\n" ++
      "\x7d\n\n"
    else ""
  let signature :=
    "/**\n" ++
    " * Makes an HTTP request to the API\n" ++
    " * @param method - HTTP method (GET, POST, etc.)\n" ++
    " * @param url - Request URL\n" ++
    " * @param options - Additional request options\n" ++
    " * @returns Promise resolving to API response\n" ++
    " */\n" ++
    "export async function makeRequest<T = any>(\n" ++
    "  method: string,\n" ++
    "  url: string,\n" ++
    "  options: any = \x7b\x7d\n" ++
    ")"
  let body :=
    if !(responseConfig.pattern == some "promise") then
      ": Promise<ApiResponse<T>> \x7b\n" ++
      "  // Replace URL parameters\n" ++
      "  let processedUrl = url;\n" ++
      "  if (options.params) \x7b\n" ++
      "    for (const [key, value] of Object.entries(options.params)) \x7b\n" ++
      "      processedUrl = processedUrl.replace(\x60\x7b$\x7bkey\x7d\x7d\x60, String(value));\n" ++
      "    \x7d\n" ++
      "  \x7d\n\n" ++
      "  try \x7b\n" ++
      (if config.httpClient == some "axios" then
        "    const response = await httpClient.request(\x7b\n" ++
        "      method,\n" ++
        "      url: processedUrl,\n" ++
        "      ...options,\n" ++
        "    \x7d);\n" ++
        "    return \x7b data: response.data, error: null \x7d;\n"
      else
        "    const response = await fetch(\x60$\x7bAPI_BASE_URL\x7d$\x7bprocessedUrl\x7d\x60, \x7b\n" ++
        "      method,\n" ++
        "      ...options,\n" ++
        "    \x7d);\n" ++
        "    if (!response.ok) \x7b\n" ++
        "      throw new Error(\x60HTTP $\x7bresponse.status\x7d: $\x7bresponse.statusText\x7d\x60);\n" ++
        "    \x7d\n" ++
        "    const data = await response.json();\n" ++
        "    return \x7b data, error: null \x7d;\n") ++
      "  \x7d catch (error) \x7b\n" ++
      "    return \x7b data: null, error: error as Error \x7d;\n" ++
      "  \x7d\n"
    else
      " \x7b\n" ++
      "  // Replace URL parameters\n" ++
      "  let processedUrl = url;\n" ++
      "  if (options.params) \x7b\n" ++
      "    for (const [key, value] of Object.entries(options.params)) \x7b\n" ++
      "      processedUrl = processedUrl.replace(\x60\x7b$\x7bkey\x7d\x7d\x60, String(value));\n" ++
      "    \x7d\n" ++
      "  \x7d\n\n" ++
      (if config.httpClient == some "axios" then
        "  const response = await httpClient.request(\x7b\n" ++
        "    method,\n" ++
        "    url: processedUrl,\n" ++
        "    ...options,\n" ++
        "  \x7d);\n" ++
        "  return response.data;\n"
      else
        "  const response = await fetch(\x60$\x7bAPI_BASE_URL\x7d$\x7bprocessedUrl\x7d\x60, \x7b\n" ++
        "    method,\n" ++
        "    ...options,\n" ++
        "  \x7d);\n" ++
        "  if (!response.ok) \x7b\n" ++
        "    throw new Error(\x60HTTP $\x7bresponse.status\x7d: $\x7bresponse.statusText\x7d\x60);\n" ++
        "  \x7d\n" ++
        "  return response.json();\n")
  header ++ axiosSetup ++ apiResponseInterface ++ signature ++ body ++ "\x7d\n"

/-- One user-declared custom error class (client.ts lines 296-330). -/
def customErrorClassText (customError : CustomErrorClass) : String :=
  "/**\n" ++
  " * " ++ customError.name ++ " - Custom error class\n" ++
  " */\n" ++
  "export class " ++ customError.name ++ " extends " ++
    jsOrStr customError.baseClass "Error" ++ " \x7b\n" ++
  (match customError.properties with
   | some props =>
     String.join (props.map (fun prop =>
       "  /** " ++ prop ++ " property */\n  " ++ prop ++ ": any;\n")) ++
     "\n" ++
     "  constructor(\n" ++
     "    message: string,\n" ++
     String.join (props.map (fun prop => "    " ++ prop ++ ": any,\n")) ++
     "  ) \x7b\n" ++
     "    super(message);\n" ++
     "    this.name = '" ++ customError.name ++ "';\n" ++
     String.join (props.map (fun prop => "    this." ++ prop ++ " = " ++ prop ++ ";\n")) ++
     "  \x7d\n"
   | none =>
     "  constructor(message: string) \x7b\n" ++
     "    super(message);\n" ++
     "    this.name = '" ++ customError.name ++ "';\n" ++
     "  \x7d\n") ++
  "\x7d\n\n"

/-- `generateErrorClasses` (client.ts lines 227-333). -/
def generateErrorClasses (includeComments : Bool) (errorConfig : ErrorHandlingConfig) : String :=
  let header :=
    if includeComments then
      "// Custom error classes\n// This file defines custom error types for API error handling\n\n"
    else ""
  let apiError :=
    if !(errorConfig.includeNetworkErrors == some false) then
      "/**\n" ++
      " * API Error - Base class for API-related errors\n" ++
      " */\n" ++
      "export class ApiError extends Error \x7b\n" ++
      "  /** HTTP status code */\n" ++
      "  statusCode?: number;\n" ++
      "  /** Response data */\n" ++
      "  response?: any;\n\n" ++
      "  constructor(\n" ++
      "    message: string,\n" ++
      "    statusCode?: number,\n" ++
      "    response?: any\n" ++
      "  ) \x7b\n" ++
      "    super(message);\n" ++
      "    this.name = 'ApiError';\n" ++
      "    this.statusCode = statusCode;\n" ++
      "    this.response = response;\n" ++
      "  \x7d\n" ++
      "\x7d\n\n"
    else ""
  let validationError :=
    if !(errorConfig.includeValidationErrors == some false) then
      "/**\n" ++
      " * Validation Error - For input validation failures\n" ++
      " */\n" ++
      "export class ValidationError extends Error \x7b\n" ++
      "  /** Field that failed validation */\n" ++
      "  field?: string;\n" ++
      "  /** Invalid value */\n" ++
      "  value?: any;\n\n" ++
      "  constructor(\n" ++
      "    message: string,\n" ++
      "    field?: string,\n" ++
      "    value?: any\n" ++
      "  ) \x7b\n" ++
      "    super(message);\n" ++
      "    this.name = 'ValidationError';\n" ++
      "    this.field = field;\n" ++
      "    this.value = value;\n" ++
      "  \x7d\n" ++
      "\x7d\n\n"
    else ""
  let networkError :=
    if !(errorConfig.includeNetworkErrors == some false) then
      "/**\n" ++
      " * Network Error - For network connectivity issues\n" ++
      " */\n" ++
      "export class NetworkError extends Error \x7b\n" ++
      "  constructor(message: string) \x7b\n" ++
      "    super(message);\n" ++
      "    this.name = 'NetworkError';\n" ++
      "  \x7d\n" ++
      "\x7d\n\n"
    else ""
  let customClasses :=
    match errorConfig.customErrorClasses with
    | some customs => String.join (customs.map customErrorClassText)
    | none => ""
  header ++ apiError ++ validationError ++ networkError ++ customClasses

/-- `generatePluginSystem` (client.ts lines 338-420). -/
def generatePluginSystem (includeComments : Bool) (pluginsConfig : PluginsConfig) : String :=
  let header :=
    if includeComments then
      "// Plugin system\n// This file provides a plugin architecture for extending API functionality\n\n"
    else ""
  header ++
  "/**\n" ++
  " * Plugin interface for extending API functionality\n" ++
  " */\n" ++
  "export interface Plugin \x7b\n" ++
  "  /** Plugin name */\n" ++
  "  name: string;\n" ++
  "  /** Called before making a request */\n" ++
  "  beforeRequest?: (config: any) => any;\n" ++
  "  /** Called after receiving a response */\n" ++
  "  afterResponse?: (response: any) => any;\n" ++
  "  /** Called when an error occurs */\n" ++
  "  onError?: (error: any) => any;\n" ++
  "\x7d\n\n" ++
  "/**\n" ++
  " * Registry for managing API plugins\n" ++
  " */\n" ++
  "export class " ++ jsOrStr pluginsConfig.registryClassName "PluginRegistry" ++ " \x7b\n" ++
  "  private plugins: Plugin[] = [];\n\n" ++
  "  /**\n" ++
  "   * Register a plugin\n" ++
  "   * @param plugin - The plugin to register\n" ++
  "   */\n" ++
  "  register(plugin: Plugin) \x7b\n" ++
  "    this.plugins.push(plugin);\n" ++
  "  \x7d\n\n" ++
  "  /**\n" ++
  "   * Apply beforeRequest hooks from all registered plugins\n" ++
  "   * @param config - The request configuration\n" ++
  "   * @returns Modified configuration\n" ++
  "   */\n" ++
  "  async applyBeforeRequest(config: any) \x7b\n" ++
  "    let result = config;\n" ++
  "    for (const plugin of this.plugins) \x7b\n" ++
  "      if (plugin.beforeRequest) \x7b\n" ++
  "        result = await plugin.beforeRequest(result);\n" ++
  "      \x7d\n" ++
  "    \x7d\n" ++
  "    return result;\n" ++
  "  \x7d\n\n" ++
  "  /**\n" ++
  "   * Apply afterResponse hooks from all registered plugins\n" ++
  "   * @param response - The response object\n" ++
  "   * @returns Modified response\n" ++
  "   */\n" ++
  "  async applyAfterResponse(response: any) \x7b\n" ++
  "    let result = response;\n" ++
  "    for (const plugin of this.plugins) \x7b\n" ++
  "      if (plugin.afterResponse) \x7b\n" ++
  "        result = await plugin.afterResponse(result);\n" ++
  "      \x7d\n" ++
  "    \x7d\n" ++
  "    return result;\n" ++
  "  \x7d\n\n" ++
  "  /**\n" ++
  "   * Apply onError hooks from all registered plugins\n" ++
  "   * @param error - The error object\n" ++
  "   * @returns Modified error\n" ++
  "   */\n" ++
  "  async applyOnError(error: any) \x7b\n" ++
  "    let result = error;\n" ++
  "    for (const plugin of this.plugins) \x7b\n" ++
  "      if (plugin.onError) \x7b\n" ++
  "        result = await plugin.onError(result);\n" ++
  "      \x7d\n" ++
  "    \x7d\n" ++
  "    return result;\n" ++
  "  \x7d\n" ++
  "\x7d\n"

/-- `generateMainClientClass` (client.ts lines 425-599). -/
def generateMainClientClass (config mergedConfig : ReatchifyConfig)
    (includeComments : Bool) (clientConfig : ClientConfig)
    (responseConfig : ResponseConfig) (pluginsConfig : PluginsConfig)
    (versioningConfig : VersioningConfig) (authConfig : AuthConfig) : String :=
  let className := jsOrStr clientConfig.className "ReatchifyClient"
  let pluginsOn := !(pluginsConfig.enabled == some false)
  let versioningOn := !(versioningConfig.enabled == some false)
  let resultPattern := !(responseConfig.pattern == some "promise")
  let header :=
    if includeComments then
      "// Reatchify Client\n// Main client class for API interactions with plugin support\n\n"
    else ""
  let importBlock :=
    "import * as api from '../" ++
      jsOrStr ((config.folderStructure.getD {}).api) "api" ++ "';\n" ++
    (if resultPattern then "import \x7b ApiResponse \x7d from './http';\n" else "") ++
    (if pluginsOn then "import \x7b PluginRegistry \x7d from './plugins';\n" else "") ++
    "\n"
  let configInterface :=
    "/**\n" ++
    " * Configuration options for the " ++ className ++ "\n" ++
    " */\n" ++
    "export interface " ++ className ++ "Config \x7b\n" ++
    "  /** API key for authentication */\n" ++
    "  apiKey?: string;\n" ++
    "  /** Base URL for API requests */\n" ++
    "  baseUrl?: string;\n" ++
    (if versioningOn then "  /** API version */\n  version?: string;\n" else "") ++
    "  /** Environment (dev, staging, prod) */\n" ++
    "  environment?: 'dev' | 'staging' | 'prod';\n" ++
    (if pluginsOn then "  /** Plugins to extend functionality */\n  plugins?: any[];\n" else "") ++
    "\x7d\n\n"
  let constructorBlock :=
    "  /**\n" ++
    "   * Create a new API client instance\n" ++
    "   * @param config - Client configuration options\n" ++
    "   */\n" ++
    "  constructor(config: " ++ className ++ "Config = \x7b\x7d) \x7b\n" ++
    "    this.config = \x7b\n" ++
    "      baseUrl: process.env.REACTIFY_API_BASE_URL || '" ++ internalBaseUrlProd ++ "',\n" ++
    (if versioningOn then
      "      version: '" ++ jsOrStr mergedConfig.apiVersion internalDefaultVersion ++ "',\n"
    else "") ++
    "      environment: 'prod',\n" ++
    "      ...config,\n" ++
    "    \x7d;\n" ++
    (if pluginsOn then
      "    this.pluginRegistry = new PluginRegistry();\n" ++
      "\n" ++
      "    // Register plugins\n" ++
      "    if (config.plugins) \x7b\n" ++
      "      config.plugins.forEach(plugin => this.pluginRegistry.register(plugin));\n" ++
      "    \x7d\n"
    else "") ++
    "  \x7d\n\n"
  let requestHeaders :=
    "      headers: \x7b\n" ++
    (if !(authConfig.enabled == some false) then
      "        'Authorization': \x60Bearer $\x7bthis.config.apiKey\x7d\x60,\n"
    else "") ++
    (if versioningOn then
      "        '" ++ jsOrStr versioningConfig.headerName "X-API-Version" ++
      "': this.config.version,\n"
    else "") ++
    "        ...options.headers,\n" ++
    "      \x7d,\n"
  let requestMethod :=
    if pluginsOn then
      "  /**\n" ++
      "   * Make an HTTP request with plugin processing\n" ++
      "   * @param method - HTTP method\n" ++
      "   * @param url - Request URL\n" ++
      "   * @param options - Request options\n" ++
      "   * @returns Promise resolving to API response\n" ++
      "   */\n" ++
      "  async request<T = any>(\n" ++
      "    method: string,\n" ++
      "    url: string,\n" ++
      "    options: any = \x7b\x7d\n" ++
      "  )" ++
      (if resultPattern then
        ": Promise<ApiResponse<T>> \x7b\n" ++
        "    // Apply before request plugins\n" ++
        "    const config = await this.pluginRegistry.applyBeforeRequest(\x7b\n" ++
        "      method,\n" ++
        "      url,\n" ++
        "      ...options,\n" ++
        requestHeaders ++
        "    \x7d);\n\n" ++
        "    try \x7b\n" ++
        "      // Make the request\n" ++
        "      const response = await fetch(\x60$\x7bthis.config.baseUrl\x7d$\x7burl\x7d\x60, config);\n" ++
        "      \n" ++
        "      if (!response.ok) \x7b\n" ++
        "        throw new Error(\x60HTTP $\x7bresponse.status\x7d: $\x7bresponse.statusText\x7d\x60);\n" ++
        "      \x7d\n\n" ++
        "      const data = await response.json();\n" ++
        "      \n" ++
        "      // Apply after response plugins\n" ++
        "      const processedResponse = await this.pluginRegistry.applyAfterResponse(\x7b\n" ++
        "        data,\n" ++
        "        status: response.status,\n" ++
        "      \x7d);\n\n" ++
        "      return \x7b data: processedResponse.data, error: null \x7d;\n" ++
        "    \x7d catch (error) \x7b\n" ++
        "      // Apply error plugins\n" ++
        "      const processedError = await this.pluginRegistry.applyOnError(error);\n" ++
        "      return \x7b data: null, error: processedError \x7d;\n" ++
        "    \x7d\n"
      else
        " \x7b\n" ++
        "    const config = await this.pluginRegistry.applyBeforeRequest(\x7b\n" ++
        "      method,\n" ++
        "      url,\n" ++
        "      ...options,\n" ++
        requestHeaders ++
        "    \x7d);\n\n" ++
        "    const response = await fetch(\x60$\x7bthis.config.baseUrl\x7d$\x7burl\x7d\x60, config);\n" ++
        "    if (!response.ok) \x7b\n" ++
        "      throw new Error(\x60HTTP $\x7bresponse.status\x7d: $\x7bresponse.statusText\x7d\x60);\n" ++
        "    \x7d\n" ++
        "    return response.json();\n") ++
      "  \x7d\n"
    else ""
  header ++ importBlock ++ configInterface ++
  "/**\n" ++
  " * Main API client class with plugin support and configuration\n" ++
  " */\n" ++
  "export class " ++ className ++ " \x7b\n" ++
  "  private config: " ++ className ++ "Config;\n" ++
  (if pluginsOn then "  private pluginRegistry: PluginRegistry;\n" else "") ++
  "\n" ++
  constructorBlock ++
  "  /**\n" ++
  "   * Access to API operation methods\n" ++
  "   */\n" ++
  "  get api() \x7b\n" ++
  "    return api;\n" ++
  "  \x7d\n\n" ++
  requestMethod ++
  "\x7d\n"

/-- `generateConfigLoader` (client.ts lines 604-639). -/
def generateConfigLoader (includeComments : Bool) (versioningConfig : VersioningConfig)
    (pluginsConfig : PluginsConfig) : String :=
  let header := if includeComments then "// Configuration loader\n\n" else ""
  header ++
  "import fs from 'fs';\n" ++
  "import path from 'path';\n\n" ++
  "export interface UserConfig \x7b\n" ++
  "  apiKey?: string;\n" ++
  "  baseUrl?: string;\n" ++
  (if !(versioningConfig.enabled == some false) then "  version?: string;\n" else "") ++
  "  environment?: 'dev' | 'staging' | 'prod';\n" ++
  "  httpClient?: 'axios' | 'fetch';\n" ++
  (if !(pluginsConfig.enabled == some false) then "  plugins?: any[];\n" else "") ++
  "\x7d\n\n" ++
  "export function loadConfig(): UserConfig \x7b\n" ++
  "  const configPath = path.resolve(process.cwd(), 'reatchify.config.ts');\n" ++
  "  \n" ++
  "  if (fs.existsSync(configPath)) \x7b\n" ++
  "    // In a real implementation, this would use a bundler to load the TS config\n" ++
  "    // For now, return defaults\n" ++
  "    return \x7b\x7d;\n" ++
  "  \x7d\n\n" ++
  "  return \x7b\x7d;\n" ++
  "\x7d\n"

/-- `generateClientUtils` (client.ts lines 644-677). -/
def generateClientUtils (includeComments : Bool) : String :=
  let header := if includeComments then "// Utility functions\n\n" else ""
  header ++
  "export function buildQueryString(params: Record<string, any>): string \x7b\n" ++
  "  const query = new URLSearchParams();\n" ++
  "  for (const [key, value] of Object.entries(params)) \x7b\n" ++
  "    if (value !== undefined && value !== null) \x7b\n" ++
  "      query.append(key, String(value));\n" ++
  "    \x7d\n" ++
  "  \x7d\n" ++
  "  return query.toString();\n" ++
  "\x7d\n\n" ++
  "export function buildHeaders(headers: Record<string, string>): Record<string, string> \x7b\n" ++
  "  return \x7b\n" ++
  "    'Content-Type': 'application/json',\n" ++
  "    ...headers,\n" ++
  "  \x7d;\n" ++
  "\x7d\n\n" ++
  "export function serializeParams(params: Record<string, any>): Record<string, any> \x7b\n" ++
  "  const result: Record<string, any> = \x7b\x7d;\n" ++
  "  for (const [key, value] of Object.entries(params)) \x7b\n" ++
  "    if (typeof value === 'object' && value !== null) \x7b\n" ++
  "      result[key] = JSON.stringify(value);\n" ++
  "    \x7d else \x7b\n" ++
  "      result[key] = value;\n" ++
  "    \x7d\n" ++
  "  \x7d\n" ++
  "  return result;\n" ++
  "\x7d\n"

/-- `generateClientFiles` (client.ts lines 26-101): assembles the `client/`
file map.  The `schema` parameter of the source is unused by the body and
omitted here. -/
def generateClientFiles (config mergedConfig : ReatchifyConfig) :
    List (String × String) :=
  let clientConfig := config.client.getD {}
  let responseConfig := config.response.getD {}
  let pluginsConfig := config.plugins.getD {}
  let errorConfig := config.errorHandling.getD {}
  let httpConfig := config.http.getD {}
  let versioningConfig := config.versioning.getD {}
  let authConfig := config.auth.getD {}
  let includeComments := includeCommentsOf config
  let f0 : List (String × String) := []
  let f1 :=
    if !((config.api.getD {}).includeHttpClient == some false) then
      recordSet f0 "http.ts" (generateHttpClient config includeComments responseConfig httpConfig)
    else f0
  let f2 :=
    if !(errorConfig.enabled == some false) &&
       !(responseConfig.includeErrorClasses == some false) then
      recordSet f1 "errors.ts" (generateErrorClasses includeComments errorConfig)
    else f1
  let f3 :=
    if !(pluginsConfig.enabled == some false) then
      recordSet f2 "plugins.ts" (generatePluginSystem includeComments pluginsConfig)
    else f2
  let f4 :=
    if !(clientConfig.enabled == some false) then
      recordSet f3 "index.ts"
        (generateMainClientClass config mergedConfig includeComments clientConfig
          responseConfig pluginsConfig versioningConfig authConfig)
    else f3
  let f5 :=
    recordSet f4 "config.ts" (generateConfigLoader includeComments versioningConfig pluginsConfig)
  if !(clientConfig.includeUtils == some false) then
    recordSet f5 "utils.ts" (generateClientUtils includeComments)
  else f5

/-! ## Configuration resolver

Transcribed from `src/core/config/configUtils.ts`.
-/

/-- `getDefaultOutputDir` (configUtils.ts lines 17-26, duplicated in
generate.ts lines 19-28): the ambient `fs.existsSync("./src/services")`
read is passed in as `servicesDirExists`. -/
def getDefaultOutputDir (servicesDirExists : Bool) : String :=
  if servicesDirExists then "./src/services/reatchify" else "./src/services"

/-- The final value of one key of an object literal `\x7b key: default,
..., ...user \x7d`: the user's own property wins when present, else the
default written earlier in the literal. -/
def jsSpreadField {α : Type} (userValue : Option α) (defaultValue : α) : Option α :=
  match userValue with
  | some v => some v
  | none => some defaultValue

/-- `mergeConfigWithDefaults` (configUtils.ts lines 43-149).
`nodeEnv` models `process.env.NODE_ENV`.  Transcription notes, both visible
in the source literal's key order:
* the `apiVersion` key computed from the environment block at lines 58-61 is
  itself overridden by the later `...userConfig` spread (line 64) whenever
  the user set a top-level `apiVersion`;
* inside the `http` group, the `headers` key merged from the internal
  headers at lines 127-130 is overridden by the raw user `headers` carried
  in the `...userConfig.http` spread (line 131) whenever the user set one. -/
def mergeConfigWithDefaults (userConfig : ReatchifyConfig) (nodeEnv : Option String)
    (servicesDirExists : Bool) : ReatchifyConfig :=
  let environment := jsOrStr nodeEnv "prod"
  let envConfig : EnvOverride :=
    ((userConfig.environments.getD []).lookup environment).getD {}
  let apiVersionPre :=
    jsOrStr envConfig.apiVersion (jsOrStr userConfig.apiVersion internalDefaultVersion)
  let ufs := userConfig.folderStructure.getD {}
  let uc := userConfig.client.getD {}
  let ua := userConfig.api.getD {}
  let ur := userConfig.response.getD {}
  let up := userConfig.plugins.getD {}
  let uv := userConfig.versioning.getD {}
  let ue := userConfig.errorHandling.getD {}
  let uh := userConfig.http.getD {}
  let ug := userConfig.generation.getD {}
  { apiKey := userConfig.apiKey
    language := jsSpreadField userConfig.language "ts"
    stateManagement := jsSpreadField userConfig.stateManagement "zustand"
    httpClient := jsSpreadField userConfig.httpClient "axios"
    outputDir := jsSpreadField userConfig.outputDir (getDefaultOutputDir servicesDirExists)
    environments := userConfig.environments
    projectType := jsSpreadField userConfig.projectType "auto"
    naming := userConfig.naming
    auth := userConfig.auth
    services := userConfig.services
    apiVersion := jsSpreadField userConfig.apiVersion apiVersionPre
    folderStructure := some
      { types := jsSpreadField ufs.types "types"
        api := jsSpreadField ufs.api "api"
        client := jsSpreadField ufs.client "client"
        stores := jsSpreadField ufs.stores "stores" }
    client := some
      { enabled := jsSpreadField uc.enabled true
        className := jsSpreadField uc.className "ReatchifyClient"
        exportAsDefault := jsSpreadField uc.exportAsDefault false
        includeUtils := jsSpreadField uc.includeUtils true }
    api := some
      { enabled := jsSpreadField ua.enabled true
        namespaceName := jsSpreadField ua.namespaceName "api"
        groupByResource := jsSpreadField ua.groupByResource true
        includeHttpClient := jsSpreadField ua.includeHttpClient true }
    response := some
      { pattern := jsSpreadField ur.pattern "result"
        includeErrorClasses := jsSpreadField ur.includeErrorClasses true
        customErrorTypes := ur.customErrorTypes }
    plugins := some
      { enabled := jsSpreadField up.enabled true
        registryClassName := jsSpreadField up.registryClassName "PluginRegistry"
        includeDefaultPlugins := jsSpreadField up.includeDefaultPlugins false }
    versioning := some
      { enabled := jsSpreadField uv.enabled true
        headerName := jsSpreadField uv.headerName "X-API-Version"
        versionFromPackage := jsSpreadField uv.versionFromPackage false }
    errorHandling := some
      { enabled := jsSpreadField ue.enabled true
        includeNetworkErrors := jsSpreadField ue.includeNetworkErrors true
        includeValidationErrors := jsSpreadField ue.includeValidationErrors true
        customErrorClasses := ue.customErrorClasses }
    http := some
      { timeout := jsSpreadField uh.timeout internalTimeout
        headers :=
          match uh.headers with
          | some hs => some hs
          | none => some internalHeaders
        retry := uh.retry
        interceptors := uh.interceptors }
    generation := some
      { includeComments := jsSpreadField ug.includeComments true
        includeJSDoc := jsSpreadField ug.includeJSDoc true
        minify := jsSpreadField ug.minify false
        sourceMap := jsSpreadField ug.sourceMap false
        declarationFiles := jsSpreadField ug.declarationFiles true
        overwrite := ug.overwrite
        dryRun := ug.dryRun
        validateOutput := ug.validateOutput } }

/-- `applyProjectTypeOptimizations` (configUtils.ts lines 164-231).
`detectedType` is the result of the external `detectProjectType`
collaborator consulted when `projectType` is `"auto"`. -/
def applyProjectTypeOptimizations (config : ReatchifyConfig) (detectedType : String) :
    ReatchifyConfig :=
  let projectType := jsOrStr config.projectType "auto"
  let c :=
    if projectType = "auto" then { config with projectType := some detectedType }
    else config
  match c.projectType with
  | some "next" =>
    { c with
      httpClient := some (jsOrStr c.httpClient "fetch")
      stateManagement := some (jsOrStr c.stateManagement "zustand") }
  | some "qwik" =>
    { c with
      httpClient := some (jsOrStr c.httpClient "fetch")
      stateManagement := some (jsOrStr c.stateManagement "zustand")
      generation := some { c.generation.getD {} with minify := some true } }
  | some "react" =>
    { c with
      httpClient := some (jsOrStr c.httpClient "axios")
      stateManagement := some (jsOrStr c.stateManagement "zustand") }
  | some "vite" =>
    { c with
      httpClient := some (jsOrStr c.httpClient "axios")
      stateManagement := some (jsOrStr c.stateManagement "zustand") }
  | some "vue" =>
    { c with
      httpClient := some (jsOrStr c.httpClient "axios")
      stateManagement := some (jsOrStr c.stateManagement "zustand") }
  | some "svelte" =>
    { c with
      httpClient := some (jsOrStr c.httpClient "fetch")
      stateManagement := some (jsOrStr c.stateManagement "zustand")
      generation := some { c.generation.getD {} with minify := some true } }
  | some "angular" =>
    { c with
      httpClient := some (jsOrStr c.httpClient "fetch")
      stateManagement := some (jsOrStr c.stateManagement "zustand")
      language := some (jsOrStr c.language "ts") }
  | _ => c

/-! ## Schema provider

Transcribed from `src/core/schema/schema.ts`.
-/

/-- The embedded fallback schema returned by `fetchSchema` on any transport
failure (schema/schema.ts lines 95-190). -/
def mockSchema : ApiSchema :=
  { endpoints :=
      [ { path := "/users", method := "GET", description := some "Get all users"
          response := some { type := "User[]" } }
      , { path := "/users/\x7bid\x7d", method := "GET", description := some "Get user by ID"
          parameters := some
            [ { name := "id", type := "string", required := true, description := some "User ID" } ]
          response := some { type := "User" } }
      , { path := "/users", method := "POST", description := some "Create a new user"
          parameters := some
            [ { name := "name", type := "string", required := true, description := some "User name" }
            , { name := "email", type := "string", required := true, description := some "User email" } ]
          response := some { type := "User" } }
      , { path := "/users/\x7bid\x7d", method := "PUT", description := some "Update user by ID"
          parameters := some
            [ { name := "id", type := "string", required := true, description := some "User ID" }
            , { name := "name", type := "string", required := false, description := some "Updated user name" }
            , { name := "email", type := "string", required := false, description := some "Updated user email" } ]
          response := some { type := "User" } }
      , { path := "/users/\x7bid\x7d", method := "DELETE", description := some "Delete user by ID"
          parameters := some
            [ { name := "id", type := "string", required := true, description := some "User ID" } ] } ]
    types :=
      [ ("User",
         [ ("id", "string"), ("name", "string"), ("email", "string")
         , ("createdAt", "string"), ("updatedAt", "string") ]) ] }

/-! ## Orchestrator

Transcribed from `src/core/generation/generate.ts` (`generateCode`).
-/

/-- The files under the output root, keyed by path relative to the root.
`none` for a whole tree means the output root directory does not exist. -/
abbrev FileTree := List (String × String)

/-- The ambient world of one `generateCode` run: the state of the output
root, ambient process state, the outcome of the schema transport call, and
the failure behaviour of the external collaborators (user hooks) and of the
filesystem calls, modelled as injectable faults.  `none` for a fault means
the call succeeds (or the hook is absent). -/
structure World where
  fsRoot : Option FileTree := none
  parentWritable : Bool := true
  nodeEnv : Option String := none
  servicesDirExists : Bool := false
  fetchOutcome : Except String ApiSchema := Except.error "network unreachable"
  beforeGenerateFault : Option String := none
  afterGenerateFault : Option String := none
  mkdirFault : Option String := none
  writeTypesFault : Option String := none
  writeApiFault : Option String := none
  writeClientFault : Option String := none
  writeStoresFault : Option String := none
  writeIndexFault : Option String := none
deriving Repr

/-- `fetchSchema` (schema/schema.ts lines 63-191): tries the versioned HTTP
GET (its outcome is the world's `fetchOutcome`) and falls back to the
embedded `mockSchema` on any failure.  It never throws. -/
def fetchSchema (w : World) : ApiSchema :=
  match w.fetchOutcome with
  | Except.ok s => s
  | Except.error _ => mockSchema

/-- The errors `generateCode` can throw, one constructor per `throw` site of
generate.ts (plus rethrown hook exceptions and injected filesystem
faults). -/
inductive GenError where
  /-- A user hook (`beforeGenerate` / `afterGenerate`) threw. -/
  | hookError (message : String)
  /-- Line 45: `API key is required. ...`. -/
  | apiKeyMissing
  /-- Line 56: `Invalid schema: No endpoints found. ...`. -/
  | invalidSchema
  /-- Line 76: `Output directory ... is not empty. ...`. -/
  | outputDirNotEmpty
  /-- Line 87: `Output directory ... is not writable. ...`. -/
  | outputDirNotWritable
  /-- An injected `fs.mkdirSync` / `fs.writeFileSync` failure. -/
  | faultInjected (step message : String)
deriving DecidableEq, Repr

/-- Decidable equality for `Except`, used to evaluate run results on
concrete inputs. -/
instance instDecEqExcept {ε α : Type} [DecidableEq ε] [DecidableEq α] :
    DecidableEq (Except ε α) := fun a b =>
  match a, b with
  | Except.ok x, Except.ok y =>
    match decEq x y with
    | isTrue h => isTrue (h ▸ rfl)
    | isFalse h => isFalse (fun hh => h (by cases hh; rfl))
  | Except.ok _, Except.error _ => isFalse (fun hh => Except.noConfusion hh)
  | Except.error _, Except.ok _ => isFalse (fun hh => Except.noConfusion hh)
  | Except.error x, Except.error y =>
    match decEq x y with
    | isTrue h => isTrue (h ▸ rfl)
    | isFalse h => isFalse (fun hh => h (by cases hh; rfl))

/-- `fs.writeFileSync(path.join(dir, filename), content)` over a whole file
map: each write creates or overwrites one file under the root. -/
def writeAll (root : FileTree) (dir : String) (files : List (String × String)) : FileTree :=
  files.foldl
    (fun acc f =>
      recordSet acc (if dir = "" then f.1 else dir ++ "/" ++ f.1) f.2)
    root

/-- One conditional write step of the orchestrator: skipped entirely on a
dry run, otherwise it either hits the injected filesystem fault or writes
every file of the group into its directory. -/
def stepWrite (dryRun : Bool) (fault : Option String) (stepName : String)
    (root : Option FileTree) (dir : String) (files : List (String × String)) :
    Except GenError (Option FileTree) :=
  if dryRun then Except.ok root
  else
    match fault with
    | some m => Except.error (GenError.faultInjected stepName m)
    | none => Except.ok (some (writeAll (root.getD []) dir files))

/-- `generateCode` (generate.ts lines 30-203).  The first component is the
thrown error (if any); the second is the state of the output root after the
run, `none` when the root directory does not exist.

Control flow mirrored from the source:
* the `beforeGenerate` hook runs first (line 35), before the credential
  check;
* `outputDir` starts as the empty string and is assigned only at line 64,
  after the schema fetch and the endpoint check, so the `catch` cleanup
  (lines 185-192), which removes the output root whenever
  `fs.existsSync(outputDir)` holds, is a no-op for errors thrown before the
  assignment and removes the entire root - pre-existing content included -
  for every error thrown after it;
* `const optimizedConfig = mergedConfig;` (line 62):
  `applyProjectTypeOptimizations` is never invoked;
* the group gates at lines 116, 126, 136 and 146 test the raw user config,
  not the merged one; the generators also receive the raw config
  (`generateClientFiles` additionally receives the merged one);
* folder names are the hard-coded defaults (lines 99-102); the
  `installDependencies` call and the `tsc` validation pass swallow their own
  failures and never touch the output root. -/
def generateCode (config : ReatchifyConfig) (w : World) :
    Except GenError Unit × Option FileTree :=
  match w.beforeGenerateFault with
  | some msg => (Except.error (GenError.hookError msg), w.fsRoot)
  | none =>
  if config.apiKey = none ∨ config.apiKey = some "" then
    (Except.error GenError.apiKeyMissing, w.fsRoot)
  else
    let mergedConfig := mergeConfigWithDefaults config w.nodeEnv w.servicesDirExists
    let schema := fetchSchema w
    if schema.endpoints = [] then
      (Except.error GenError.invalidSchema, w.fsRoot)
    else
      let dryRun := (generationOf config).dryRun == some true
      let overwrite := !((generationOf config).overwrite == some false)
      if !dryRun && !overwrite && w.fsRoot.isSome && (w.fsRoot.getD []).length > 0 then
        (Except.error GenError.outputDirNotEmpty, none)
      else if !dryRun && !w.parentWritable then
        (Except.error GenError.outputDirNotWritable, none)
      else
        match (if dryRun then none else w.mkdirFault) with
        | some m => (Except.error (GenError.faultInjected "mkdir" m), none)
        | none =>
          let root0 := if dryRun then w.fsRoot else some (w.fsRoot.getD [])
          let afterTypes :=
            if includeCommentsOf config then
              stepWrite dryRun w.writeTypesFault "types" root0 "types"
                (generateTypesFiles schema config)
            else Except.ok root0
          match afterTypes with
          | Except.error e => (Except.error e, none)
          | Except.ok root1 =>
            let afterApi :=
              if !((config.api.getD {}).enabled == some false) then
                stepWrite dryRun w.writeApiFault "api" root1 "api"
                  (generateApiFiles schema config).files
              else Except.ok root1
            match afterApi with
            | Except.error e => (Except.error e, none)
            | Except.ok root2 =>
              let afterClient :=
                if !((config.client.getD {}).enabled == some false) then
                  stepWrite dryRun w.writeClientFault "client" root2 "client"
                    (generateClientFiles config mergedConfig)
                else Except.ok root2
              match afterClient with
              | Except.error e => (Except.error e, none)
              | Except.ok root3 =>
                let afterStores :=
                  if !(config.stateManagement == some "none") then
                    stepWrite dryRun w.writeStoresFault "stores" root3 "stores"
                      (generateStoreFiles schema config)
                  else Except.ok root3
                match afterStores with
                | Except.error e => (Except.error e, none)
                | Except.ok root4 =>
                  let afterIndex :=
                    stepWrite dryRun w.writeIndexFault "index" root4 ""
                      [("index.ts", generateMainIndexFile config)]
                  match afterIndex with
                  | Except.error e => (Except.error e, none)
                  | Except.ok root5 =>
                    match w.afterGenerateFault with
                    | some m => (Except.error (GenError.hookError m), none)
                    | none => (Except.ok (), root5)

/-! ## Semantics of the emitted response patterns

`generateHttpClient` emits one of two `makeRequest` bodies and
`generateMainClientClass` one of two `request` bodies, each selected by the
test `responseConfig.pattern !== "promise"` (client.ts lines 136/160, 444
and 529).  The definitions below are a semantic model of the emitted
JavaScript, one constructor per control path of the emitted text.
-/

/-- The outcome of the underlying transport call made by the emitted
helper: the awaited response either produced payload data or threw. -/
inductive TransportOutcome where
  | success (data : String)
  | failure (message : String)
deriving DecidableEq, Repr

/-- The `\x7b data, error \x7d` object of the emitted result pattern. -/
structure ResultShape where
  data : Option String
  error : Option String
deriving DecidableEq, Repr

/-- Model of the result-pattern `makeRequest` body (client.ts lines
160-190): the `try` branch returns `\x7b data, error: null \x7d`, the
`catch` branch returns `\x7b data: null, error \x7d`; every path returns,
none throws. -/
def makeRequestResultSem : TransportOutcome → ResultShape
  | TransportOutcome.success d => { data := some d, error := none }
  | TransportOutcome.failure e => { data := none, error := some e }

/-- Model of the promise-pattern `makeRequest` body (client.ts lines
191-217): bare data on success, a thrown error on failure. -/
def makeRequestPromiseSem : TransportOutcome → Except String String
  | TransportOutcome.success d => Except.ok d
  | TransportOutcome.failure e => Except.error e

/-- What a generated api function resolves to: the result-pattern wrapper
object, or the bare payload of the promise pattern. -/
inductive FetchedData where
  | wrapped (r : ResultShape)
  | bare (s : String)
deriving DecidableEq, Repr

/-- The state a generated store's fetch action leaves behind: either
`set(\x7b data, loading: false \x7d)` or `set(\x7b error: message,
loading: false \x7d)` (stores/index.ts lines 916-930). -/
inductive StoreResolution where
  | dataSet (d : FetchedData)
  | errorMessage (msg : String)
deriving DecidableEq, Repr

/-- The branch test of `generateHttpClient` (client.ts lines 136 and 160):
`responseConfig.pattern !== "promise"` on `config.response || \x7b\x7d`. -/
def httpHelperResultMode (config : ReatchifyConfig) : Bool :=
  !((config.response.getD {}).pattern == some "promise")

/-- The branch test of `generateMainClientClass`'s `request` method
(client.ts lines 444 and 529): textually the same test on the same
config. -/
def clientClassResultMode (config : ReatchifyConfig) : Bool :=
  !((config.response.getD {}).pattern == some "promise")

/-- The behaviour of the `makeRequest` helper emitted for `config`: the
result-pattern body never throws and always resolves to the wrapper object;
the promise-pattern body returns bare data and throws on failure. -/
def makeRequestSem (config : ReatchifyConfig) (o : TransportOutcome) :
    Except String FetchedData :=
  if httpHelperResultMode config then
    Except.ok (FetchedData.wrapped (makeRequestResultSem o))
  else
    (makeRequestPromiseSem o).map FetchedData.bare

/-- The behaviour of a generated store's fetch action (stores/index.ts
lines 916-930): it awaits the generated api function - which returns
`makeRequest`'s result (api/index.ts lines 112-114) - then sets the data
state; a thrown error is caught and sets the error-message state. -/
def storeFetchSem (config : ReatchifyConfig) (o : TransportOutcome) : StoreResolution :=
  match makeRequestSem config o with
  | Except.ok d => StoreResolution.dataSet d
  | Except.error e => StoreResolution.errorMessage e

/-! ## Spec-side definitions

These definitions follow the wording of the specification (claim C6,
`deriveMethodName` in spec section 4.2), to be compared with the source's
`generateMethodName`.
-/

/-- Spec: maps an HTTP verb to a semantic prefix (GET to get, POST to
create, PUT/PATCH to update, DELETE to delete, any other verb to
operation); the verb is matched case-insensitively. -/
def specSemanticPrefix (method : String) : String :=
  match jsToUpper method with
  | "GET" => "get"
  | "POST" => "create"
  | "PUT" => "update"
  | "PATCH" => "update"
  | "DELETE" => "delete"
  | _ => "operation"

/-- The non-parameter path segments: the path split on `/`, dropping empty
segments and `\x7bparam\x7d` placeholders. -/
def nonParamSegments (path : String) : List String :=
  (jsSplit path '/').filter (fun p => p != "" && !(jsStartsWith p "\x7b"))

/-- Spec: camel-casing of the resource noun; for the single-word segments
the generator handles, camel-casing is lower-casing the leading
character. -/
def specCamelCase (s : String) : String := lowerFirst s

/-- Spec: whether some declared parameter name is or contains `id`
case-insensitively (a name that is exactly `id` in particular contains
it). -/
def specHasIdParam (params : List Param) : Bool :=
  params.any (fun p => jsIncludes (jsToLower p.name) "id")

/-- Spec: the `ById` suffix, appended exactly when `specHasIdParam`. -/
def specIdSuffix (params : List Param) : String :=
  if specHasIdParam params then "ById" else ""

/-! ## Concrete inputs used by the claim theorems and witnesses -/

/-- A config with an explicit `generation.overwrite = false`. -/
def c1Config : ReatchifyConfig :=
  { apiKey := some "key", outputDir := some "./out"
    generation := some { overwrite := some false } }

/-- A world whose output root already exists and holds one user file. -/
def c1World : World :=
  { fsRoot := some [("pre-existing.txt", "user data")] }

/-- A minimal valid config (API key only). -/
def c2Config : ReatchifyConfig := { apiKey := some "key" }

/-- A world where the schema GET succeeds but returns a schema with no
endpoints, and the output root pre-exists with stale content. -/
def c2World : World :=
  { fsRoot := some [("stale.txt", "old")]
    fetchOutcome := Except.ok { endpoints := [], types := [] } }

/-- A world that reaches the write phase and then fails writing the root
index file. -/
def c2FaultWorld : World :=
  { fsRoot := some [("stale.txt", "old")], writeIndexFault := some "disk full" }

/-- A schema whose only resource is literally named `index`. -/
def c4Schema : ApiSchema := { endpoints := [{ path := "/index", method := "GET" }], types := [] }

/-- Service selection naming the `index` resource. -/
def c4Config : ReatchifyConfig := { services := some { includeServices := some ["index"] } }

/-- The two-resource schema of the witness run: `users` and `ghost` is
missing. -/
def c4WitnessSchema : ApiSchema :=
  { endpoints := [{ path := "/users", method := "GET" }, { path := "/posts", method := "POST" }]
    types := [] }

/-- Selection of one present and one absent service. -/
def c4WitnessConfig : ReatchifyConfig :=
  { services := some { includeServices := some ["users", "ghost"] } }

/-- Schema with `users` and `posts` resources. -/
def c5Schema : ApiSchema :=
  { endpoints := [{ path := "/users", method := "GET" }, { path := "/posts", method := "GET" }]
    types := [] }

/-- Zustand state management with service selection restricted to `users`. -/
def c5Config : ReatchifyConfig :=
  { apiKey := some "key", stateManagement := some "zustand"
    services := some { includeServices := some ["users"] } }

/-- The `GET /users/\x7bid\x7d` endpoint with a required `id` parameter. -/
def epUsersById : Endpoint :=
  { path := "/users/\x7bid\x7d", method := "GET"
    parameters := some [{ name := "id", type := "string", required := true }] }

/-- Top-level `apiVersion` v1 plus a `prod` environment block setting
apiVersion v3 and httpClient fetch. -/
def c8Config : ReatchifyConfig :=
  { apiKey := some "key", apiVersion := some "v1"
    environments := some [("prod", { apiVersion := some "v3", httpClient := some "fetch" })] }

/-- A qwik project whose user explicitly disabled minification. -/
def c9Config : ReatchifyConfig :=
  { projectType := some "qwik", httpClient := some "axios"
    generation := some { minify := some false } }

/-- Overwrite left unset (no `generation` group at all). -/
def c10Config : ReatchifyConfig := { apiKey := some "key" }

/-- A world whose output root pre-exists and is non-empty, with no faults. -/
def c10World : World := { fsRoot := some [("old.txt", "x")] }

end ReatchifySDK

namespace ReatchifySDK

/-! ## Helper lemmas -/

/-- Appending the empty string is the identity. -/
theorem str_append_empty (s : String) : s ++ "" = s := by
  cases s with
  | mk data => show String.mk (data ++ []) = String.mk data; rw [List.append_nil]

/-- The source's `p.name === "id" || p.name.toLowerCase().includes("id")`
test (api/utils.ts lines 39-41) equals the spec's "is or contains id"
predicate: a name that is exactly `id` in particular contains it. -/
theorem hasId_eq (ps : List Param) :
    ps.any (fun p => p.name == "id" || jsIncludes (jsToLower p.name) "id") = specHasIdParam ps := by
  induction ps with
  | nil => rfl
  | cons p t ih =>
    simp only [specHasIdParam, List.any_cons] at ih ⊢
    by_cases h : p.name = "id"
    · have : jsIncludes (jsToLower p.name) "id" = true := by rw [h]; decide
      simp [this]
    · have hb : (p.name == "id") = false := beq_false_of_ne h
      simp [hb, ih]

/-- One key of `\x7b default, ..., ...user \x7d` resolves to the user value
when present, else to the default. -/
theorem jsSpreadField_eq_getD {α : Type} (x : Option α) (d : α) :
    jsSpreadField x d = some (x.getD d) := by
  cases x <;> rfl

/-- A choice of two `ok` values is never an `error`. -/
theorem ite_ok_eq_error_iff {e b : Type} (c : Prop) [Decidable c] (x y : b) (err : e) :
    ((if c then Except.ok x else Except.ok y) = (Except.error err : Except e b)) ↔ False := by
  split <;> simp

/-- Inverting a choice of two `ok` values. -/
theorem ite_ok_eq_ok_iff {e b : Type} (c : Prop) [Decidable c] (x y r : b) :
    ((if c then Except.ok x else Except.ok y) = (Except.ok r : Except e b)) ↔
      r = if c then x else y := by
  split <;> simp <;> exact eq_comm

/-- Membership in the insertion-ordered dedup fold of `getAvailableServices`. -/
theorem mem_dedup_fold_aux (eps : List Endpoint) (acc : List String) (x : String) :
    (x ∈ eps.foldl
        (fun acc ep =>
          let r := resourceOf ep.path
          if acc.contains r then acc else acc ++ [r])
        acc) ↔
      x ∈ acc ∨ ∃ ep ∈ eps, resourceOf ep.path = x := by
  induction eps generalizing acc with
  | nil => simp
  | cons e t ih =>
    simp only [List.foldl_cons]
    rw [ih]
    by_cases hc : acc.contains (resourceOf e.path)
    · have hm : resourceOf e.path ∈ acc := List.elem_iff.mp hc
      simp only [hc, if_true]
      constructor
      · rintro (hx | ⟨ep, hmem, hr⟩)
        · exact Or.inl hx
        · exact Or.inr ⟨ep, List.mem_cons_of_mem _ hmem, hr⟩
      · rintro (hx | ⟨ep, hmem, hr⟩)
        · exact Or.inl hx
        · rcases List.mem_cons.mp hmem with rfl | hmem'
          · exact Or.inl (hr ▸ hm)
          · exact Or.inr ⟨ep, hmem', hr⟩
    · simp only [hc, if_false]
      constructor
      · rintro (hx | ⟨ep, hmem, hr⟩)
        · rcases List.mem_append.mp hx with hx' | hx'
          · exact Or.inl hx'
          · exact Or.inr ⟨e, List.mem_cons_self e t, (List.mem_singleton.mp hx').symm⟩
        · exact Or.inr ⟨ep, List.mem_cons_of_mem _ hmem, hr⟩
      · rintro (hx | ⟨ep, hmem, hr⟩)
        · exact Or.inl (List.mem_append.mpr (Or.inl hx))
        · rcases List.mem_cons.mp hmem with rfl | hmem'
          · exact Or.inl (List.mem_append.mpr (Or.inr (List.mem_singleton.mpr hr.symm)))
          · exact Or.inr ⟨ep, hmem', hr⟩

/-- A service name is available exactly when some endpoint has it as its
resource. -/
theorem mem_getAvailableServices (schema : ApiSchema) (x : String) :
    x ∈ getAvailableServices schema ↔ ∃ ep ∈ schema.endpoints, resourceOf ep.path = x := by
  unfold getAvailableServices
  rw [mem_dedup_fold_aux]
  simp

/-- Keys after inserting one endpoint into the resources object. -/
theorem mem_keys_addEndpoint (acc : List (String × List Endpoint)) (r : String) (ep : Endpoint)
    (x : String) :
    (x ∈ (addEndpointToResources acc r ep).map Prod.fst) ↔ x ∈ acc.map Prod.fst ∨ x = r := by
  unfold addEndpointToResources
  split
  · next hany =>
    have hkeys : (acc.map (fun p => if p.1 == r then (p.1, p.2 ++ [ep]) else p)).map Prod.fst =
        acc.map Prod.fst := by
      rw [List.map_map]
      apply List.map_congr_left
      intro p _
      simp only [Function.comp]
      split <;> rfl
    rw [hkeys]
    have hr : r ∈ acc.map Prod.fst := by
      rcases List.any_eq_true.mp hany with ⟨p, hmem, hpr⟩
      exact List.mem_map.mpr ⟨p, hmem, eq_of_beq hpr⟩
    constructor
    · exact Or.inl
    · rintro (hx | rfl)
      · exact hx
      · exact hr
  · simp [List.mem_append]

/-- Inserting an endpoint never duplicates a resource key. -/
theorem nodup_keys_addEndpoint (acc : List (String × List Endpoint)) (r : String) (ep : Endpoint)
    (h : (acc.map Prod.fst).Nodup) :
    ((addEndpointToResources acc r ep).map Prod.fst).Nodup := by
  unfold addEndpointToResources
  split
  · next hany =>
    have hkeys : (acc.map (fun p => if p.1 == r then (p.1, p.2 ++ [ep]) else p)).map Prod.fst =
        acc.map Prod.fst := by
      rw [List.map_map]
      apply List.map_congr_left
      intro p _
      simp only [Function.comp]
      split <;> rfl
    rw [hkeys]; exact h
  · next hany =>
    rw [List.map_append]
    simp only [List.map_cons, List.map_nil]
    apply List.Nodup.append h (List.nodup_singleton r)
    intro a ha hb
    rcases List.mem_singleton.mp hb with rfl
    rcases List.mem_map.mp ha with ⟨p, hmem, rfl⟩
    exact absurd (List.any_eq_true.mpr ⟨p, hmem, by simp⟩) hany

/-- Membership in the keys of the grouping fold, accumulator generalized. -/
theorem mem_keys_group_aux (eps : List Endpoint) (svc : List String)
    (acc : List (String × List Endpoint)) (x : String) :
    (x ∈ (eps.foldl
        (fun acc ep =>
          let resource := resourceOf ep.path
          if svc.contains resource then addEndpointToResources acc resource ep else acc)
        acc).map Prod.fst) ↔
      x ∈ acc.map Prod.fst ∨ ∃ ep ∈ eps, resourceOf ep.path = x ∧ x ∈ svc := by
  induction eps generalizing acc with
  | nil => simp
  | cons e t ih =>
    simp only [List.foldl_cons]
    rw [ih]
    by_cases hc : svc.contains (resourceOf e.path)
    · simp only [hc, if_true]
      rw [mem_keys_addEndpoint]
      constructor
      · rintro ((hx | rfl) | ⟨ep, hmem, hr, hs⟩)
        · exact Or.inl hx
        · exact Or.inr ⟨e, List.mem_cons_self e t, rfl, List.elem_iff.mp hc⟩
        · exact Or.inr ⟨ep, List.mem_cons_of_mem _ hmem, hr, hs⟩
      · rintro (hx | ⟨ep, hmem, hr, hs⟩)
        · exact Or.inl (Or.inl hx)
        · rcases List.mem_cons.mp hmem with rfl | hmem'
          · exact Or.inl (Or.inr hr.symm)
          · exact Or.inr ⟨ep, hmem', hr, hs⟩
    · simp only [hc, if_false]
      constructor
      · rintro (hx | ⟨ep, hmem, hr, hs⟩)
        · exact Or.inl hx
        · exact Or.inr ⟨ep, List.mem_cons_of_mem _ hmem, hr, hs⟩
      · rintro (hx | ⟨ep, hmem, hr, hs⟩)
        · exact Or.inl hx
        · rcases List.mem_cons.mp hmem with rfl | hmem'
          · exact absurd (List.elem_iff.mpr (hr ▸ hs)) hc
          · exact Or.inr ⟨ep, hmem', hr, hs⟩

/-- A resource key appears in the grouped object exactly when some endpoint
has that resource and the resource is selected. -/
theorem mem_keys_group (eps : List Endpoint) (svc : List String) (x : String) :
    x ∈ (groupEndpointsByResource eps svc).map Prod.fst ↔
      ∃ ep ∈ eps, resourceOf ep.path = x ∧ x ∈ svc := by
  unfold groupEndpointsByResource
  rw [mem_keys_group_aux]
  simp

/-- The grouping fold preserves key distinctness. -/
theorem nodup_keys_group_aux (eps : List Endpoint) (svc : List String)
    (acc : List (String × List Endpoint)) (h : (acc.map Prod.fst).Nodup) :
    ((eps.foldl
        (fun acc ep =>
          let resource := resourceOf ep.path
          if svc.contains resource then addEndpointToResources acc resource ep else acc)
        acc).map Prod.fst).Nodup := by
  induction eps generalizing acc with
  | nil => exact h
  | cons e t ih =>
    simp only [List.foldl_cons]
    by_cases hc : svc.contains (resourceOf e.path)
    · simp only [hc, if_true]
      exact ih _ (nodup_keys_addEndpoint _ _ _ h)
    · simp only [hc, if_false]
      exact ih _ h

/-- The grouped object has pairwise-distinct resource keys. -/
theorem nodup_keys_group (eps : List Endpoint) (svc : List String) :
    ((groupEndpointsByResource eps svc).map Prod.fst).Nodup :=
  nodup_keys_group_aux eps svc [] List.nodup_nil

/-- When no endpoint's resource is selected, the grouped object is empty. -/
theorem group_eq_nil (eps : List Endpoint) (svc : List String)
    (h : ∀ ep ∈ eps, ¬(resourceOf ep.path ∈ svc)) :
    groupEndpointsByResource eps svc = [] := by
  unfold groupEndpointsByResource
  induction eps with
  | nil => rfl
  | cons e t ih =>
    simp only [List.foldl_cons]
    have hc : svc.contains (resourceOf e.path) = false := by
      cases hcc : svc.contains (resourceOf e.path) with
      | false => rfl
      | true => exact absurd (List.elem_iff.mp hcc) (h e (List.mem_cons_self e t))
    simp only [hc, if_false]
    exact ih (fun ep hm => h ep (List.mem_cons_of_mem _ hm))

/-- Assigning a fresh key appends the entry. -/
theorem recordSet_fresh (m : List (String × String)) (k v : String)
    (h : ¬(k ∈ keysOf m)) : recordSet m k v = m ++ [(k, v)] := by
  induction m with
  | nil => rfl
  | cons p t ih =>
    unfold recordSet
    have hne : ¬(p.1 = k) := by
      intro he; exact h (by simp [keysOf, he])
    rw [if_neg hne]
    rw [ih (fun hk => h (by simp [keysOf] at hk ⊢; exact Or.inr hk))]
    rfl

/-- A fold of fresh-key assignments builds the corresponding map. -/
theorem foldl_recordSet_fresh {α : Type} (key : α → String) (val : α → String) (l : List α)
    (acc : List (String × String)) (hfresh : ∀ a ∈ l, ¬(key a ∈ keysOf acc))
    (hn : (l.map key).Nodup) :
    l.foldl (fun m a => recordSet m (key a) (val a)) acc =
      acc ++ l.map (fun a => (key a, val a)) := by
  induction l generalizing acc with
  | nil => simp
  | cons a t ih =>
    simp only [List.foldl_cons, List.map_cons]
    rw [recordSet_fresh acc (key a) (val a) (hfresh a (List.mem_cons_self a t))]
    rw [ih (acc ++ [(key a, val a)])]
    · simp
    · intro b hb
      intro hkb
      simp only [keysOf, List.map_append] at hkb
      rcases List.mem_append.mp hkb with hk | hk
      · exact hfresh b (List.mem_cons_of_mem _ hb) hk
      · simp only [List.map_cons, List.map_nil, List.mem_singleton] at hk
        have hn' := (List.nodup_cons.mp (List.map_cons key a t ▸ hn)).1
        exact absurd (List.mem_map.mpr ⟨b, hb, hk⟩) hn'
    · exact (List.nodup_cons.mp (List.map_cons key a t ▸ hn)).2

/-- Appending the `.ts` suffix is injective. -/
theorem append_ts_injective : Function.Injective (fun s : String => s ++ ".ts") := by
  intro s t h
  cases s with | mk sd =>
  cases t with | mk td =>
  have hd : sd ++ ".ts".data = td ++ ".ts".data := congrArg String.data h
  exact congrArg String.mk (List.append_cancel_right hd)

/-- The catch-block dichotomy of `generateCode`: every run either ends with
the output root removed, or succeeds, or threw before `outputDir` was
assigned (the `beforeGenerate` hook, the credential check, the
no-endpoints check - the only error sites ahead of generate.ts line 64). -/
theorem generateCode_cleanup (cfg : ReatchifyConfig) (w : World) :
    (generateCode cfg w).2 = none ∨
    (generateCode cfg w).1 = Except.ok () ∨
    w.beforeGenerateFault ≠ none ∨
    (cfg.apiKey = none ∨ cfg.apiKey = some "") ∨
    (fetchSchema w).endpoints = [] := by
  unfold generateCode
  dsimp only
  repeat' first
    | (left; rfl)
    | (right; left; rfl)
    | (right; right; left; simp_all; done)
    | (right; right; right; left; simp_all; done)
    | (right; right; right; right; simp_all; done)
    | split

set_option maxHeartbeats 2000000 in
/-- On a fault-free filesystem, the not-empty abort is the only source of
the `outputDirNotEmpty` error, and it fires only under an explicit
`overwrite: false`. -/
theorem generateCode_notEmpty_char (cfg : ReatchifyConfig) (w : World)
    (hmk : w.mkdirFault = none) (ht : w.writeTypesFault = none)
    (ha : w.writeApiFault = none) (hc : w.writeClientFault = none)
    (hs : w.writeStoresFault = none) (hi : w.writeIndexFault = none) :
    (generateCode cfg w).1 = Except.error GenError.outputDirNotEmpty →
    (generationOf cfg).overwrite = some false := by
  unfold generateCode
  dsimp only
  simp only [hmk, ht, ha, hc, hs, hi]
  cases hdr : ((generationOf cfg).dryRun == some true) <;>
    simp only [hdr, stepWrite, Bool.false_eq_true, Bool.true_eq_false, if_false, if_true,
      ite_self, ite_false, ite_true] <;>
    repeat' first
      | (intro h; simp_all [ite_ok_eq_error_iff, ite_ok_eq_ok_iff]; done)
      | split

set_option maxHeartbeats 2000000 in
/-- A fault-free run over an existing non-empty root with `overwrite` unset
succeeds and leaves the root present. -/
theorem generateCode_success (cfg : ReatchifyConfig) (w : World) (files : FileTree)
    (hov : (generationOf cfg).overwrite = none)
    (hroot : w.fsRoot = some files) (hne : files ≠ [])
    (hhook : w.beforeGenerateFault = none) (hafter : w.afterGenerateFault = none)
    (hmk : w.mkdirFault = none) (ht : w.writeTypesFault = none)
    (ha : w.writeApiFault = none) (hc : w.writeClientFault = none)
    (hs : w.writeStoresFault = none) (hi : w.writeIndexFault = none)
    (hw : w.parentWritable = true)
    (hkey : ¬(cfg.apiKey = none ∨ cfg.apiKey = some ""))
    (hschema : (fetchSchema w).endpoints ≠ []) :
    (generateCode cfg w).1 = Except.ok () ∧ (generateCode cfg w).2.isSome := by
  unfold generateCode
  dsimp only
  simp only [hhook, hafter, hmk, ht, ha, hc, hs, hi, hov, hroot, hw]
  rw [if_neg hkey, if_neg hschema]
  cases hdr : ((generationOf cfg).dryRun == some true) <;>
    simp only [hdr, stepWrite, Bool.false_eq_true, Bool.true_eq_false, if_false, if_true,
      ite_self, Bool.not_true, Bool.not_false, Bool.false_and, Bool.and_false, Bool.true_and,
      Bool.and_true, reduceCtorEq, ite_false, ite_true] <;>
    repeat' first
      | (constructor <;> rfl)
      | (simp_all [ite_ok_eq_error_iff, ite_ok_eq_ok_iff]; done)
      | split

end ReatchifySDK

namespace ReatchifySDK

/-! ## Claim theorems -/

/-- C1 (code_bug): with `generation.overwrite` explicitly `false`, `dryRun`
unset and a non-empty pre-existing output directory, `generateCode` does
throw the not-empty error, but the `catch` cleanup then deletes the
pre-existing output directory and all of its contents - the claim's (and
the spec's) requirement that everything be left exactly as before is
violated by the code. -/
theorem c1_overwrite_abort_deletes_preexisting_output :
    generateCode c1Config c1World = (Except.error GenError.outputDirNotEmpty, none) ∧
    c1World.fsRoot = some [("pre-existing.txt", "user data")] := by
  decide

/-- C2 (counterexample): a run in which the schema GET succeeds but returns
a schema with no endpoints throws the schema-validation error before
`outputDir` is assigned; the error propagates to the caller while the
pre-existing output root still exists and is non-empty, refuting the claim
as stated. -/
theorem c2_counterexample_schema_error_leaves_existing_root :
    generateCode c2Config c2World = (Except.error GenError.invalidSchema, some [("stale.txt", "old")]) ∧
    (some [("stale.txt", "old")] : Option FileTree) ≠ none ∧
    [("stale.txt", "old")] ≠ ([] : FileTree) := by
  decide

/-- C2 (corrected): once the run is past the `beforeGenerate` hook, the
credential check and the no-endpoints schema validation - the only steps
that can throw before `outputDir` is assigned (schema fetch itself never
throws; it falls back to the mock schema) - every propagated error leaves
the output root removed. -/
theorem c2_amended_cleanup_after_root_assignment (cfg : ReatchifyConfig) (w : World)
    (hhook : w.beforeGenerateFault = none)
    (hkey : ¬(cfg.apiKey = none ∨ cfg.apiKey = some ""))
    (hschema : (fetchSchema w).endpoints ≠ [])
    (e : GenError) (herr : (generateCode cfg w).1 = Except.error e) :
    (generateCode cfg w).2 = none := by
  rcases generateCode_cleanup cfg w with h | h | h | h | h
  · exact h
  · rw [herr] at h; exact Except.noConfusion h
  · exact absurd hhook h
  · exact absurd h hkey
  · exact absurd h hschema

/-- C2 witness: a concrete run that fails while writing the root index file
ends with the output root gone. -/
theorem c2_amended_cleanup_witness :
    (generateCode c2Config c2FaultWorld).2 = none ∧
    (generateCode c2Config c2FaultWorld).1 =
      Except.error (GenError.faultInjected "index" "disk full") := by
  refine ⟨c2_amended_cleanup_after_root_assignment c2Config c2FaultWorld rfl (by decide)
    (by decide) (GenError.faultInjected "index" "disk full") (by decide), by decide⟩

/-- C3 (counterexample): resolving the empty user configuration leaves
`generation.overwrite` and `http.retry` - keys of nested groups with no
built-in default - unset, although both groups themselves are present, so
not every key of every nested group is populated. -/
theorem c3_counterexample_defaultless_keys_unpopulated :
    ((mergeConfigWithDefaults {} none false).generation.getD {}).overwrite = none ∧
    ((mergeConfigWithDefaults {} none false).http.getD {}).retry = none ∧
    (mergeConfigWithDefaults {} none false).generation.isSome ∧
    (mergeConfigWithDefaults {} none false).http.isSome := by
  decide

/-- C3 (corrected): every nested group is merged key-by-key on top of that
group's built-in defaults, so every key that has a built-in default is
populated - the user's value when set, the default otherwise - and in
particular a user configuration that sets only `client.className` resolves
with `client.enabled = true`. -/
theorem c3_amended_groupwise_default_merge (u : ReatchifyConfig) (nodeEnv : Option String)
    (sde : Bool) :
    (((mergeConfigWithDefaults u nodeEnv sde).folderStructure.getD {}).types =
        some ((u.folderStructure.getD {}).types.getD "types") ∧
      ((mergeConfigWithDefaults u nodeEnv sde).folderStructure.getD {}).api =
        some ((u.folderStructure.getD {}).api.getD "api") ∧
      ((mergeConfigWithDefaults u nodeEnv sde).folderStructure.getD {}).client =
        some ((u.folderStructure.getD {}).client.getD "client") ∧
      ((mergeConfigWithDefaults u nodeEnv sde).folderStructure.getD {}).stores =
        some ((u.folderStructure.getD {}).stores.getD "stores")) ∧
    (((mergeConfigWithDefaults u nodeEnv sde).client.getD {}).enabled =
        some ((u.client.getD {}).enabled.getD true) ∧
      ((mergeConfigWithDefaults u nodeEnv sde).client.getD {}).className =
        some ((u.client.getD {}).className.getD "ReatchifyClient") ∧
      ((mergeConfigWithDefaults u nodeEnv sde).client.getD {}).exportAsDefault =
        some ((u.client.getD {}).exportAsDefault.getD false) ∧
      ((mergeConfigWithDefaults u nodeEnv sde).client.getD {}).includeUtils =
        some ((u.client.getD {}).includeUtils.getD true)) ∧
    (((mergeConfigWithDefaults u nodeEnv sde).api.getD {}).enabled =
        some ((u.api.getD {}).enabled.getD true) ∧
      ((mergeConfigWithDefaults u nodeEnv sde).api.getD {}).namespaceName =
        some ((u.api.getD {}).namespaceName.getD "api") ∧
      ((mergeConfigWithDefaults u nodeEnv sde).api.getD {}).groupByResource =
        some ((u.api.getD {}).groupByResource.getD true) ∧
      ((mergeConfigWithDefaults u nodeEnv sde).api.getD {}).includeHttpClient =
        some ((u.api.getD {}).includeHttpClient.getD true)) ∧
    (((mergeConfigWithDefaults u nodeEnv sde).response.getD {}).pattern =
        some ((u.response.getD {}).pattern.getD "result") ∧
      ((mergeConfigWithDefaults u nodeEnv sde).response.getD {}).includeErrorClasses =
        some ((u.response.getD {}).includeErrorClasses.getD true)) ∧
    (((mergeConfigWithDefaults u nodeEnv sde).plugins.getD {}).enabled =
        some ((u.plugins.getD {}).enabled.getD true) ∧
      ((mergeConfigWithDefaults u nodeEnv sde).plugins.getD {}).registryClassName =
        some ((u.plugins.getD {}).registryClassName.getD "PluginRegistry") ∧
      ((mergeConfigWithDefaults u nodeEnv sde).plugins.getD {}).includeDefaultPlugins =
        some ((u.plugins.getD {}).includeDefaultPlugins.getD false)) ∧
    (((mergeConfigWithDefaults u nodeEnv sde).versioning.getD {}).enabled =
        some ((u.versioning.getD {}).enabled.getD true) ∧
      ((mergeConfigWithDefaults u nodeEnv sde).versioning.getD {}).headerName =
        some ((u.versioning.getD {}).headerName.getD "X-API-Version") ∧
      ((mergeConfigWithDefaults u nodeEnv sde).versioning.getD {}).versionFromPackage =
        some ((u.versioning.getD {}).versionFromPackage.getD false)) ∧
    (((mergeConfigWithDefaults u nodeEnv sde).errorHandling.getD {}).enabled =
        some ((u.errorHandling.getD {}).enabled.getD true) ∧
      ((mergeConfigWithDefaults u nodeEnv sde).errorHandling.getD {}).includeNetworkErrors =
        some ((u.errorHandling.getD {}).includeNetworkErrors.getD true) ∧
      ((mergeConfigWithDefaults u nodeEnv sde).errorHandling.getD {}).includeValidationErrors =
        some ((u.errorHandling.getD {}).includeValidationErrors.getD true)) ∧
    (((mergeConfigWithDefaults u nodeEnv sde).http.getD {}).timeout =
        some ((u.http.getD {}).timeout.getD internalTimeout) ∧
      ((mergeConfigWithDefaults u nodeEnv sde).http.getD {}).headers =
        some ((u.http.getD {}).headers.getD internalHeaders)) ∧
    (((mergeConfigWithDefaults u nodeEnv sde).generation.getD {}).includeComments =
        some ((u.generation.getD {}).includeComments.getD true) ∧
      ((mergeConfigWithDefaults u nodeEnv sde).generation.getD {}).includeJSDoc =
        some ((u.generation.getD {}).includeJSDoc.getD true) ∧
      ((mergeConfigWithDefaults u nodeEnv sde).generation.getD {}).minify =
        some ((u.generation.getD {}).minify.getD false) ∧
      ((mergeConfigWithDefaults u nodeEnv sde).generation.getD {}).sourceMap =
        some ((u.generation.getD {}).sourceMap.getD false) ∧
      ((mergeConfigWithDefaults u nodeEnv sde).generation.getD {}).declarationFiles =
        some ((u.generation.getD {}).declarationFiles.getD true)) ∧
    (∀ s, u.client = some { enabled := none, className := some s, exportAsDefault := none, includeUtils := none } →
      ((mergeConfigWithDefaults u nodeEnv sde).client.getD {}).enabled = some true ∧
      ((mergeConfigWithDefaults u nodeEnv sde).client.getD {}).className = some s) := by
  refine ⟨?_, ?_, ?_, ?_, ?_, ?_, ?_, ?_, ?_, ?_⟩ <;>
    simp only [mergeConfigWithDefaults, jsSpreadField_eq_getD, Option.getD_some]
  all_goals first
    | (intro s hs; simp [hs])
    | (simp; done)
    | (refine ⟨by simp, ?_⟩
       cases hh : (u.http.getD {}).headers <;> simp [hh])

/-- C3 witness: the characterization at the configuration that sets only
`client.className`. -/
theorem c3_amended_groupwise_default_merge_witness :
    ((mergeConfigWithDefaults { client := some { className := some "MyClient" } } none
        false).client.getD {}).enabled = some true ∧
    ((mergeConfigWithDefaults { client := some { className := some "MyClient" } } none
        false).client.getD {}).className = some "MyClient" :=
  (c3_amended_groupwise_default_merge { client := some { className := some "MyClient" } } none
    false).2.2.2.2.2.2.2.2.2 "MyClient" rfl

end ReatchifySDK

namespace ReatchifySDK

/-- C4 (counterexample): for a schema whose only resource is named `index`
and an allow-list containing `index`, grouped generation first writes the
`index.ts` resource file and then overwrites that same key with the api
index content, so the produced set has a single file - the resource file
required by the claim is gone. -/
theorem c4_counterexample_index_resource_clobbered :
    "index" ∈ getAvailableServices c4Schema ∧
    keysOf (generateApiFiles c4Schema c4Config).files = ["index.ts"] ∧
    (generateApiFiles c4Schema c4Config).files.lookup "index.ts" =
      some (apiIndexContent true ["index"]) ∧
    apiIndexContent true ["index"] ≠
      apiResourceFileContent c4Config true true "index" [{ path := "/index", method := "GET" }] := by
  refine ⟨by decide, by decide, rfl, by decide⟩

/-- C4 (corrected): provided no selected resource is itself named `index`,
grouped generation produces exactly one resource file per resource in the
intersection of the allow-list with the schema's resources plus the api
index file, with pairwise-distinct names; the non-fatal warning lists
every selected-but-missing name together with the available alternatives;
and an empty intersection still yields a single well-formed index file
with zero re-exports. -/
theorem c4_amended_service_selection (schema : ApiSchema) (config : ReatchifyConfig)
    (sel : List String)
    (hsel : (config.services.getD {}).includeServices = some sel)
    (hgroup : ¬((config.api.getD {}).groupByResource = some false))
    (hidx : ¬("index" ∈ getAvailableServices schema ∧ "index" ∈ sel)) :
    (∀ name, name ∈ keysOf (generateApiFiles schema config).files ↔
      (name = "index.ts" ∨
        ∃ r, r ∈ getAvailableServices schema ∧ r ∈ sel ∧ name = r ++ ".ts")) ∧
    (keysOf (generateApiFiles schema config).files).Nodup ∧
    ((generateApiFiles schema config).warnings =
      if (sel.filter (fun s => !((getAvailableServices schema).contains s))).length > 0 then
        ["⚠️  Warning: The following services are not available in the schema: " ++
           jsJoin ", " (sel.filter (fun s => !((getAvailableServices schema).contains s))),
         "Available services: " ++ jsJoin ", " (getAvailableServices schema)]
      else []) ∧
    ((∀ r, r ∈ getAvailableServices schema → ¬(r ∈ sel)) →
      (generateApiFiles schema config).files =
        [("index.ts", apiIndexContent (includeCommentsOf config) [])]) := by
  have hgb : (!((config.api.getD {}).groupByResource == some false)) = true := by
    simp only [Bool.not_eq_true']
    exact beq_false_of_ne hgroup
  have hresources :
      (generateApiFiles schema config).files =
        (groupEndpointsByResource schema.endpoints sel).map
          (fun e => (e.1 ++ ".ts",
            apiResourceFileContent config (includeCommentsOf config)
              (!((config.api.getD {}).includeHttpClient == some false)) e.1 e.2)) ++
          [("index.ts",
            apiIndexContent (includeCommentsOf config)
              ((groupEndpointsByResource schema.endpoints sel).map Prod.fst))] ∧
      (generateApiFiles schema config).warnings =
        (if 0 < (sel.filter (fun s => !((getAvailableServices schema).contains s))).length then
          ["⚠️  Warning: The following services are not available in the schema: " ++
             jsJoin ", " (sel.filter (fun s => !((getAvailableServices schema).contains s))),
           "Available services: " ++ jsJoin ", " (getAvailableServices schema)]
         else []) := by
    unfold generateApiFiles
    dsimp only
    rw [hsel]
    simp only [Option.getD_some, hgb, if_true]
    constructor
    · have hnodup : ((groupEndpointsByResource schema.endpoints sel).map
          (fun (e : String × List Endpoint) => e.1 ++ ".ts")).Nodup := by
        have : (groupEndpointsByResource schema.endpoints sel).map
            (fun (e : String × List Endpoint) => e.1 ++ ".ts") =
            ((groupEndpointsByResource schema.endpoints sel).map Prod.fst).map
              (fun s => s ++ ".ts") := by
          rw [List.map_map]; rfl
        rw [this]
        exact (nodup_keys_group schema.endpoints sel).map append_ts_injective
      rw [foldl_recordSet_fresh (fun (e : String × List Endpoint) => e.1 ++ ".ts") _ _ _
        (by intro a _ hk; simp [keysOf] at hk) hnodup]
      rw [List.nil_append]
      rw [recordSet_fresh]
      intro hk
      simp only [keysOf, List.map_map] at hk
      rcases List.mem_map.mp hk with ⟨e, hmem, heq⟩
      have he : e.1 = "index" := append_ts_injective (heq : e.1 ++ ".ts" = "index" ++ ".ts")
      have hkey : "index" ∈ (groupEndpointsByResource schema.endpoints sel).map Prod.fst :=
        he ▸ List.mem_map.mpr ⟨e, hmem, rfl⟩
      rcases (mem_keys_group schema.endpoints sel "index").mp hkey with ⟨ep, hmem', hr, hs⟩
      exact hidx ⟨(mem_getAvailableServices schema "index").mpr ⟨ep, hmem', hr⟩, hs⟩
    · trivial
  refine ⟨?_, ?_, ?_, ?_⟩
  · intro name
    rw [show keysOf (generateApiFiles schema config).files = _ from congrArg keysOf hresources.1]
    simp only [keysOf, List.map_append, List.map_map, List.mem_append]
    constructor
    · rintro (hk | hk)
      · rcases List.mem_map.mp hk with ⟨e, hmem, heq⟩
        have hkey : e.1 ∈ (groupEndpointsByResource schema.endpoints sel).map Prod.fst :=
          List.mem_map.mpr ⟨e, hmem, rfl⟩
        rcases (mem_keys_group schema.endpoints sel e.1).mp hkey with ⟨ep, hmem', hr, hs⟩
        exact Or.inr ⟨e.1, (mem_getAvailableServices schema e.1).mpr ⟨ep, hmem', hr⟩, hs, heq.symm⟩
      · simp only [List.map_cons, List.map_nil, List.mem_singleton] at hk
        exact Or.inl hk
    · rintro (rfl | ⟨r, hav, hs, rfl⟩)
      · exact Or.inr (by simp)
      · left
        rcases (mem_getAvailableServices schema r).mp hav with ⟨ep, hmem, hr⟩
        have hkey : r ∈ (groupEndpointsByResource schema.endpoints sel).map Prod.fst :=
          (mem_keys_group schema.endpoints sel r).mpr ⟨ep, hmem, hr, hs⟩
        rcases List.mem_map.mp hkey with ⟨e, hmem', he⟩
        exact List.mem_map.mpr ⟨e, hmem', by simp [he]⟩
  · rw [show keysOf (generateApiFiles schema config).files = _ from congrArg keysOf hresources.1]
    simp only [keysOf, List.map_append, List.map_map, List.map_cons, List.map_nil]
    apply List.Nodup.append
    · have : (groupEndpointsByResource schema.endpoints sel).map
          ((fun p : String × String => p.1) ∘ (fun e : String × List Endpoint => (e.1 ++ ".ts",
            apiResourceFileContent config (includeCommentsOf config)
              (!((config.api.getD {}).includeHttpClient == some false)) e.1 e.2))) =
          ((groupEndpointsByResource schema.endpoints sel).map Prod.fst).map
            (fun s => s ++ ".ts") := by
        rw [List.map_map]; rfl
      rw [this]
      exact (nodup_keys_group schema.endpoints sel).map append_ts_injective
    · exact List.nodup_singleton _
    · intro a ha hb
      rcases List.mem_singleton.mp hb with rfl
      rcases List.mem_map.mp ha with ⟨e, hmem, heq⟩
      have he : e.1 = "index" := append_ts_injective (heq : e.1 ++ ".ts" = "index" ++ ".ts")
      have hkey : "index" ∈ (groupEndpointsByResource schema.endpoints sel).map Prod.fst :=
        he ▸ List.mem_map.mpr ⟨e, hmem, rfl⟩
      rcases (mem_keys_group schema.endpoints sel "index").mp hkey with ⟨ep, hmem', hr, hs⟩
      exact hidx ⟨(mem_getAvailableServices schema "index").mpr ⟨ep, hmem', hr⟩, hs⟩
  · rw [hresources.2]
  · intro hempty
    have hnil : groupEndpointsByResource schema.endpoints sel = [] := by
      apply group_eq_nil
      intro ep hmem hin
      exact hempty (resourceOf ep.path)
        ((mem_getAvailableServices schema (resourceOf ep.path)).mpr ⟨ep, hmem, rfl⟩) hin
    rw [hresources.1, hnil]
    rfl

/-- C4 witness: selecting `users` and the missing `ghost` over a
users/posts schema keeps distinct file names, includes the `users.ts`
resource file, and warns about `ghost` with the available alternatives. -/
theorem c4_amended_service_selection_witness :
    (keysOf (generateApiFiles c4WitnessSchema c4WitnessConfig).files).Nodup ∧
    "users.ts" ∈ keysOf (generateApiFiles c4WitnessSchema c4WitnessConfig).files ∧
    (generateApiFiles c4WitnessSchema c4WitnessConfig).warnings =
      ["⚠️  Warning: The following services are not available in the schema: ghost",
       "Available services: users, posts"] := by
  have h := c4_amended_service_selection c4WitnessSchema c4WitnessConfig ["users", "ghost"] rfl
    (by decide) (by decide)
  refine ⟨h.2.1, ?_, ?_⟩
  · exact (h.1 "users.ts").mpr (Or.inr ⟨"users", by decide, by decide, rfl⟩)
  · rw [h.2.2.1]; decide

end ReatchifySDK

namespace ReatchifySDK

/-- C5 (code_bug): with service selection restricted to `users` over a
users/posts schema and zustand stores enabled, the store generator - which
iterates every schema endpoint, ignoring `services.include` - emits
`GetPostsStore.ts` importing `getPosts` from `../api/posts`, while the api
generator produces only `users.ts` and `index.ts`: the store's relative import
names a file that does not exist in the generated set, violating the
cross-reference-closure invariant. -/
theorem c5_store_import_dangling_under_service_selection :
    "GetPostsStore.ts" ∈ keysOf (generateStoreFiles c5Schema c5Config) ∧
    (generateStoreFiles c5Schema c5Config).lookup "GetPostsStore.ts" =
      some (generateZustandEndpointStore { path := "/posts", method := "GET" } true
        (namingOf c5Config) "getPosts" "GetPosts") ∧
    zustandStoreApiImport "getPosts" (resourceOf "/posts") =
      "import \x7b getPosts \x7d from '../api/posts';\n\n" ∧
    ¬("posts.ts" ∈ keysOf (generateApiFiles c5Schema c5Config).files) ∧
    keysOf (generateApiFiles c5Schema c5Config).files = ["users.ts", "index.ts"] := by
  refine ⟨by decide, rfl, rfl, by decide, by decide⟩

/-- C6 (confirmed): for any endpoint whose path has a first non-parameter
segment, the emitted function name is the verb's semantic prefix, followed
by the capitalized camel-cased first non-parameter path segment, followed
by `ById` exactly when some declared parameter name is or contains `id`
case-insensitively. -/
theorem c6_method_name_composition (ep : Endpoint) (h : nonParamSegments ep.path ≠ []) :
    generateMethodName ep =
      specSemanticPrefix ep.method ++
      upperFirst (specCamelCase ((nonParamSegments ep.path).headD "")) ++
      specIdSuffix (ep.parameters.getD []) := by
  obtain ⟨x, t, hxt⟩ : ∃ x t, nonParamSegments ep.path = x :: t := by
    cases hnp : nonParamSegments ep.path with
    | nil => exact absurd hnp h
    | cons x t => exact ⟨x, t, rfl⟩
  have hxmem : x ∈ nonParamSegments ep.path := by
    rw [hxt]; exact List.mem_cons_self x t
  have hpred := List.of_mem_filter (p := fun p => p != "" && !(jsStartsWith p "\x7b")) hxmem
  have hxne : ¬(x = "") := by
    simp only [Bool.and_eq_true, bne_iff_ne, ne_eq] at hpred
    exact hpred.1
  simp only [generateMethodName, specSemanticPrefix, specCamelCase, specIdSuffix]
  rw [show ((jsSplit ep.path '/').filter (fun p => p != "" && !(jsStartsWith p "\x7b"))) = x :: t
    from hxt]
  rw [hasId_eq]
  simp only [hxt, List.headD, List.head?_cons, jsOrStr]
  rw [if_neg hxne]
  cases specHasIdParam (ep.parameters.getD []) with
  | true => simp
  | false => simp [str_append_empty]

/-- C6 witness: `GET /users/\x7bid\x7d` with a required parameter named
`id` yields `getUsersById`, which ends in `ById`. -/
theorem c6_method_name_composition_witness :
    generateMethodName epUsersById = "getUsersById" ∧
    jsEndsWith (generateMethodName epUsersById) "ById" = true := by
  have h := c6_method_name_composition epUsersById (by decide)
  exact ⟨by rw [h]; decide, by decide⟩

/-- C7 (confirmed): the http helper and the client class branch on the same
`response.pattern !== "promise"` test of the same resolved configuration,
so one run never mixes modes; in result mode the emitted `makeRequest`
always resolves to a `\x7b data, error \x7d` object with exactly one side
set and never throws, and the generated store's fetch action always ends in
the data-set state wrapping that object; in promise mode the helper
returns bare data on success and throws on failure, and the store's fetch
action ends in the data-set state on success and in the error-message state
on failure. -/
theorem c7_response_pattern_consistency (config : ReatchifyConfig) (o : TransportOutcome) :
    httpHelperResultMode config = clientClassResultMode config ∧
    (httpHelperResultMode config = true →
      makeRequestSem config o = Except.ok (FetchedData.wrapped (makeRequestResultSem o)) ∧
      (makeRequestResultSem o).data.isSome = !(makeRequestResultSem o).error.isSome ∧
      storeFetchSem config o = StoreResolution.dataSet (FetchedData.wrapped (makeRequestResultSem o))) ∧
    (httpHelperResultMode config = false →
      (∀ d, o = TransportOutcome.success d →
        makeRequestSem config o = Except.ok (FetchedData.bare d) ∧
        storeFetchSem config o = StoreResolution.dataSet (FetchedData.bare d)) ∧
      (∀ e, o = TransportOutcome.failure e →
        makeRequestSem config o = Except.error e ∧
        storeFetchSem config o = StoreResolution.errorMessage e)) := by
  refine ⟨rfl, ?_, ?_⟩
  · intro hmode
    cases o <;> simp [makeRequestSem, storeFetchSem, makeRequestResultSem, hmode]
  · intro hmode
    constructor
    · rintro d rfl
      simp [makeRequestSem, storeFetchSem, makeRequestPromiseSem, hmode, Except.map]
    · rintro e rfl
      simp [makeRequestSem, storeFetchSem, makeRequestPromiseSem, hmode, Except.map]

/-- C7 witness: the default configuration is in result mode and a failing
transport still resolves to a wrapper object; a promise-mode configuration
propagates the failure into the store's error-message state. -/
theorem c7_response_pattern_consistency_witness :
    makeRequestSem {} (TransportOutcome.failure "boom") =
      Except.ok (FetchedData.wrapped { data := none, error := some "boom" }) ∧
    storeFetchSem { response := some { pattern := some "promise" } }
        (TransportOutcome.failure "boom") =
      StoreResolution.errorMessage "boom" := by
  constructor
  · exact ((c7_response_pattern_consistency {} (TransportOutcome.failure "boom")).2.1
      (by decide)).1
  · exact (((c7_response_pattern_consistency { response := some { pattern := some "promise" } }
      (TransportOutcome.failure "boom")).2.2 (by decide)).2 "boom" rfl).2

/-- C8 (code_bug): although the literal computes an environment-aware
`apiVersion` first (line 58, matching its own comment "check
environment-specific first"), the later `...userConfig` spread (line 64)
overrides it with the top-level value whenever one is set, and no field of
the environment block other than `apiVersion` is consulted at all: with
both `apiVersion: v1` top-level and `environments.prod.apiVersion: v3`, the
resolved version is `v1`, and the environment block's `httpClient: fetch`
is ignored in favor of the built-in default. -/
theorem c8_env_override_loses_to_top_level :
    (mergeConfigWithDefaults c8Config (some "prod") false).apiVersion = some "v1" ∧
    (mergeConfigWithDefaults c8Config (some "prod") false).httpClient = some "axios" ∧
    (mergeConfigWithDefaults { c8Config with apiVersion := none } (some "prod") false).apiVersion =
      some "v3" := by
  decide

/-- C9 (counterexample): for a qwik project whose user explicitly set
`generation.minify = false`, `applyProjectTypeOptimizations` overrides the
explicit value to `true`, refuting the only-when-unset part of the claim
(the user-set `httpClient` is preserved). -/
theorem c9_counterexample_qwik_forces_minify :
    ((applyProjectTypeOptimizations c9Config "vanilla").generation.getD {}).minify = some true ∧
    (c9Config.generation.getD {}).minify = some false ∧
    (applyProjectTypeOptimizations c9Config "vanilla").httpClient = some "axios" := by
  decide

/-- C9 (corrected): project-type tuning leaves a user-set (non-empty)
`httpClient` and `stateManagement` unchanged, but for `qwik` and `svelte`
it sets `generation.minify` to `true` unconditionally, overriding an
explicit user value; and the orchestrator never applies the tuning at all -
`generateCode`'s behaviour is unchanged under any change of
`projectType`. -/
theorem c9_amended_project_type_tuning :
    (∀ c d h, c.httpClient = some h → ¬(h = "") →
      (applyProjectTypeOptimizations c d).httpClient = some h) ∧
    (∀ c d s, c.stateManagement = some s → ¬(s = "") →
      (applyProjectTypeOptimizations c d).stateManagement = some s) ∧
    (∀ c d, (c.projectType = some "qwik" ∨ c.projectType = some "svelte") →
      ((applyProjectTypeOptimizations c d).generation.getD {}).minify = some true) ∧
    (∀ cfg w, generateCode cfg w = generateCode { cfg with projectType := some "vanilla" } w) := by
  refine ⟨?_, ?_, ?_, fun cfg w => rfl⟩
  · intro c d h hh hne
    unfold applyProjectTypeOptimizations
    dsimp only
    split <;> split <;> simp_all [jsOrStr]
  · intro c d s hs hne
    unfold applyProjectTypeOptimizations
    dsimp only
    split <;> split <;> simp_all [jsOrStr]
  · intro c d hpt
    unfold applyProjectTypeOptimizations
    rcases hpt with h | h <;> simp_all [jsOrStr]

/-- C9 witness: tuning a `next` project keeps an explicit `axios`, a
`svelte` project gets `minify = true`, and a concrete run is unchanged
under a projectType change. -/
theorem c9_amended_project_type_tuning_witness :
    (applyProjectTypeOptimizations { httpClient := some "axios", projectType := some "next" }
        "vanilla").httpClient = some "axios" ∧
    ((applyProjectTypeOptimizations { projectType := some "svelte" }
        "vanilla").generation.getD {}).minify = some true ∧
    generateCode c10Config c10World =
      generateCode { c10Config with projectType := some "vanilla" } c10World := by
  refine ⟨?_, ?_, ?_⟩
  · exact c9_amended_project_type_tuning.1 _ "vanilla" "axios" rfl (by decide)
  · exact c9_amended_project_type_tuning.2.2.1 _ "vanilla" (Or.inr rfl)
  · exact c9_amended_project_type_tuning.2.2.2 c10Config c10World

/-- C10 (confirmed): `generateCode` treats an unset `generation.overwrite`
as enabled - on a fault-free filesystem the not-empty abort fires only
under an explicit `overwrite: false` (the TypeScript interface comment
claims a default of `false`, generate.ts line 72 implements default
`true`) - so a default run over an existing non-empty output directory
succeeds and writes into it. -/
theorem c10_overwrite_default_enabled :
    (∀ cfg w, w.mkdirFault = none → w.writeTypesFault = none → w.writeApiFault = none →
      w.writeClientFault = none → w.writeStoresFault = none → w.writeIndexFault = none →
      (generateCode cfg w).1 = Except.error GenError.outputDirNotEmpty →
      (generationOf cfg).overwrite = some false) ∧
    (∀ cfg w files, (generationOf cfg).overwrite = none → w.fsRoot = some files →
      files ≠ [] → w.beforeGenerateFault = none → w.afterGenerateFault = none →
      w.mkdirFault = none → w.writeTypesFault = none → w.writeApiFault = none →
      w.writeClientFault = none → w.writeStoresFault = none → w.writeIndexFault = none →
      w.parentWritable = true → ¬(cfg.apiKey = none ∨ cfg.apiKey = some "") →
      (fetchSchema w).endpoints ≠ [] →
      (generateCode cfg w).1 = Except.ok () ∧ (generateCode cfg w).2.isSome) := by
  constructor
  · intro cfg w hmk ht ha hc hs hi
    exact generateCode_notEmpty_char cfg w hmk ht ha hc hs hi
  · intro cfg w files hov hroot hne hhook hafter hmk ht ha hc hs hi hw hkey hschema
    exact generateCode_success cfg w files hov hroot hne hhook hafter hmk ht ha hc hs hi hw
      hkey hschema

/-- C10 witness: a concrete default run (no `generation` group, pre-existing
non-empty root) succeeds with the root still present. -/
theorem c10_overwrite_default_enabled_witness :
    (generateCode c10Config c10World).1 = Except.ok () ∧
    (generateCode c10Config c10World).2.isSome :=
  c10_overwrite_default_enabled.2 c10Config c10World [("old.txt", "x")] rfl rfl (by decide)
    rfl rfl rfl rfl rfl rfl rfl rfl rfl (by decide) (by decide)

end ReatchifySDK
